import Mathlib

/-!
Verification of the GAP autonomy-kernel core against its specification.

The development shallowly embeds the governance evaluator, the execution
fabric, the CGA (Constraint-Guided Autonomy) loop, the rule-based strategy
generator, the reconciler dampening state machine and the decision lineage
ledger.  Python floats are modelled as rationals, datetimes as explicit
structures or ISO strings, dictionaries as association lists, and fallible
calls as Except/Option.  Runtime-generated identifiers (uuid4) and wall-clock
reads (datetime.utcnow) are passed in as explicit arguments.  The croniter
match and the SHA-256 digest are taken as function parameters: the claims
under study do not depend on their internals, only on how their results are
used.
-/

/-- Property values stored in an entity's open `properties` map.  The source
keeps arbitrary JSON-ish values; the kernel reads strings, booleans, numbers
and nulls, which this type covers. -/
inductive PropVal where
  | s (v : String)
  | b (v : Bool)
  | i (v : Int)
  | q (v : ℚ)
  | strs (v : List String)
  | null
deriving DecidableEq, Repr

/-- Python truthiness of a property value (`if not consent:` in the source). -/
def truthy : PropVal → Bool
  | .s v => v ≠ ""
  | .b v => v
  | .i v => v ≠ 0
  | .q v => v ≠ 0
  | .strs v => ! v.isEmpty
  | .null => false

/-- String rendering of a property value, for the human-readable messages the
source builds with f-strings. -/
def pv_repr : PropVal → String
  | .s v => v
  | .b true => "True"
  | .b false => "False"
  | .i v => toString v
  | .q v => toString v
  | .strs v => "[" ++ String.intercalate ", " v ++ "]"
  | .null => "None"

abbrev Props := List (String × PropVal)

/-- `dict.get(key)` on a properties map. -/
def props_get (ps : Props) (k : String) : Option PropVal :=
  (ps.find? (fun kv => kv.1 == k)).map (·.2)

/-- models/world.py EntityState.  `last_updated` is kept as its ISO string. -/
structure EntityState where
  entity_type : String
  entity_id : String
  properties : Props
  last_updated : String
  source : String
  confidence : ℚ := 1
  obligations : List String := []
deriving DecidableEq, Repr

/-- models/world.py WorldModel.  `entities` is the dict keyed by entity id. -/
structure WorldModel where
  entities : List (String × EntityState) := []
  last_reconciled : String
  drift_events : List Props := []
deriving DecidableEq, Repr

/-- `world_state.entities.get(target_id)`. -/
def wm_get (w : WorldModel) (k : String) : Option EntityState :=
  (w.entities.find? (fun kv => kv.1 == k)).map (·.2)

/-- models/intent.py ConstraintType. -/
inductive ConstraintType where
  | hard
  | soft
deriving DecidableEq, Repr

/-- models/intent.py PolicyActivation. -/
structure PolicyActivation where
  always : Bool := true
  schedule : Option String := none
  condition : Option String := none
  emergency_override : Bool := false
deriving DecidableEq, Repr

/-- models/intent.py Constraint. -/
structure Constraint where
  name : String
  type : ConstraintType
  description : String
  activation : PolicyActivation := {}
deriving DecidableEq, Repr

/-- models/intent.py IntentVector. -/
structure IntentVector where
  id : String
  objective : String
  priority : Nat
  hard_constraints : List Constraint
  soft_constraints : List Constraint
  cost_ceiling : Option ℚ := none
  created_by : String
  created_at : String
  active : Bool := true
deriving DecidableEq, Repr

/-- models/strategy.py PlannedAction. -/
structure PlannedAction where
  action_type : String
  target : String
  parameters : Props
  requires_consent : Bool := false
  reversible : Bool := true
  risk_score : Nat
deriving DecidableEq, Repr

/-- models/strategy.py StrategyProposal. -/
structure StrategyProposal where
  id : String
  intent_id : String
  attempt_number : Nat
  plan_description : String
  actions : List PlannedAction
  estimated_cost : ℚ
  rationale : String
  prior_rejection_id : Option String := none
  generated_at : String
deriving DecidableEq, Repr

/-- models/governance.py GovernanceVerdict. -/
inductive GovernanceVerdict where
  | approved
  | rejected
  | escalate
deriving DecidableEq, Repr

/-- The `.value` string of a verdict. -/
def verdict_value : GovernanceVerdict → String
  | .approved => "approved"
  | .rejected => "rejected"
  | .escalate => "escalate"

/-- models/governance.py AuthorizationLevel (L0-L4). -/
inductive AuthorizationLevel where
  | L0
  | L1
  | L2
  | L3
  | L4
deriving DecidableEq, Repr

/-- Rank of an authorization level.  The source compares the `.value` strings
"L0" < ... < "L4", whose lexicographic order coincides with this rank. -/
def AuthorizationLevel.val : AuthorizationLevel → Nat
  | .L0 => 0
  | .L1 => 1
  | .L2 => 2
  | .L3 => 3
  | .L4 => 4

/-- models/governance.py UncertaintyDeclaration.  `confidence_level` models
the Python float as a rational. -/
structure UncertaintyDeclaration where
  assumptions : List String := []
  watch_conditions : List String := []
  evidence_basis : List String := []
  known_unknowns : List String := []
  confidence_level : ℚ := 4/5
  calibration_notes : Option String := none
deriving DecidableEq, Repr

/-- models/governance.py RiskProfile. -/
structure RiskProfile where
  impact_scope : String := "local"
  reversibility : String := "reversible"
  blast_radius : String := "narrow"
deriving DecidableEq, Repr

/-- models/governance.py PhaseConfig. -/
structure PhaseConfig where
  phase_name : String
  required : Bool := true
  default_authorization_level : AuthorizationLevel := .L1
  escalation_on_deviation : Bool := false
deriving DecidableEq, Repr

/-- models/governance.py ActionTypeSpec.  `registered_at` is an ISO string. -/
structure ActionTypeSpec where
  type_id : String
  description : String
  risk_profile : RiskProfile := {}
  default_authorization_level : AuthorizationLevel := .L1
  applicable_policies : List String := []
  escalation_config : List (String × String) := []
  phase_config : List PhaseConfig := []
  registered_by : String := "system"
  registered_at : Option String := none
deriving DecidableEq, Repr

/-- models/governance.py GovernancePhaseResult.  `evaluated_at` as ISO string. -/
structure GovernancePhaseResult where
  phase_name : String
  verdict : GovernanceVerdict
  authorization_level : AuthorizationLevel
  violated_constraints : List String := []
  rejection_reason : Option String := none
  rejection_detail : Option String := none
  evaluated_at : String
deriving DecidableEq, Repr

/-- The serialized active-policy set attached to a decision
(`_serialize_active_policies`): name, type value and description of each
active constraint, plus the count.  A decision's `policy_snapshot` is
`Option PolicySnapshot`; `none` models the literal empty dict used on the
unregistered-action-type path. -/
structure PolicySnapshot where
  active_constraints : List (String × String × String)
  count : Nat
deriving DecidableEq, Repr

/-- Evaluation wall-clock instant: ISO rendering, hour and weekday name, the
only projections of `datetime` the kernel reads. -/
structure Dt where
  iso : String
  hour : Nat
  weekday : String
deriving DecidableEq, Repr

/-- `_get_temporal_snapshot`. -/
structure TemporalContext where
  evaluated_at : String
  hour : Nat
  weekday : String
  is_business_hours : Bool
deriving DecidableEq, Repr

def get_temporal_snapshot (t : Dt) : TemporalContext :=
  { evaluated_at := t.iso, hour := t.hour, weekday := t.weekday,
    is_business_hours := 9 ≤ t.hour && t.hour < 18 }

/-- models/governance.py GovernanceDecision. -/
structure GovernanceDecision where
  id : String
  proposal_id : String
  verdict : GovernanceVerdict
  violated_constraints : List String := []
  rejection_reason : Option String := none
  rejection_detail : Option String := none
  authorization_level : Option AuthorizationLevel := none
  authorization_tier : Option String := none
  policy_snapshot : Option PolicySnapshot := none
  temporal_context : Option TemporalContext := none
  evaluated_at : String
  evaluator : String := "governance_kernel"
  uncertainty : Option UncertaintyDeclaration := none
  action_type_id : Option String := none
  phase_results : List GovernancePhaseResult := []
deriving DecidableEq, Repr

/-! ## Governance kernel: temporal authority and constraint checks
(governance/kernel.py) -/

/-- `_is_constraint_active`.  `cron_match` abstracts `croniter.match`; the
source treats match as authoritative and a parse failure as inactive, which
the parameter absorbs.  An empty schedule string is falsy in Python and is
therefore not matched. -/
def is_constraint_active (cron_match : String → Dt → Bool)
    (c : Constraint) (t : Dt) : Bool :=
  if c.activation.always then true
  else
    match c.activation.schedule with
    | some s => if s ≠ "" then cron_match s t else false
    | none => false

/-- ASCII upper-casing of a character (`str.upper()` on the geo codes). -/
def ascii_upper_char (c : Char) : Char :=
  if 97 ≤ c.toNat ∧ c.toNat ≤ 122 then Char.ofNat (c.toNat - 32) else c

/-- ASCII lower-casing of a character (`str.lower()` on constraint names). -/
def ascii_lower_char (c : Char) : Char :=
  if 65 ≤ c.toNat ∧ c.toNat ≤ 90 then Char.ofNat (c.toNat + 32) else c

/-- `s.upper()` over the character list. -/
def str_upper (s : String) : String := ⟨s.data.map ascii_upper_char⟩

/-- `s.lower()` over the character list. -/
def str_lower (s : String) : String := ⟨s.data.map ascii_lower_char⟩

/-- The direct-outreach action-type set shared by the GDPR and contact-hours
checks. -/
def outreach_types : List String :=
  ["send_email", "send_sms", "direct_call", "automated_outreach"]

/-- The recognized EU/EEA geo codes of `_check_gdpr_consent`. -/
def eu_geo_set : List String :=
  ["EU", "EEA", "DE", "FR", "IT", "ES", "NL", "BE", "AT",
   "SE", "DK", "FI", "IE", "PT", "GR", "PL", "CZ", "RO",
   "HU", "BG", "HR", "SK", "SI", "LT", "LV", "EE", "CY",
   "MT", "LU"]

/-- `props.get("geo", props.get("jurisdiction", default))`. -/
def geo_of (ps : Props) (dflt : PropVal) : PropVal :=
  match props_get ps "geo" with
  | some v => v
  | none => (props_get ps "jurisdiction").getD dflt

/-- `_check_gdpr_consent`.  A non-string geo value would raise in the source
(no decision returned there); it is totalized to the non-EU branch here. -/
def check_gdpr_consent (p : StrategyProposal) (_c : Constraint)
    (w : WorldModel) : Bool :=
  p.actions.any fun a =>
    if outreach_types.contains a.action_type then
      match wm_get w a.target with
      | some e =>
          let geo := match geo_of e.properties (.s "") with
            | .s v => v
            | _ => ""
          if eu_geo_set.contains (str_upper geo) then
            ! truthy ((props_get e.properties "gdpr_consent").getD (.b false))
          else false
      | none => a.requires_consent
    else false

/-- `_check_contact_hours`.  Python booleans are integers 0/1, both `< 7`;
a string local_hour raises in the source (no decision), totalized to false. -/
def check_contact_hours (p : StrategyProposal) (_c : Constraint)
    (w : WorldModel) : Bool :=
  p.actions.any fun a =>
    if outreach_types.contains a.action_type then
      match wm_get w a.target with
      | some e =>
          match props_get e.properties "local_hour" with
          | some (.i h) => decide (h ≥ 22 ∨ h < 7)
          | some (.q x) => decide (x ≥ 22 ∨ x < 7)
          | some (.b _) => true
          | some (.s _) => false
          | some (.strs _) => false
          | some .null => false
          | none => false
      | none => false
    else false

/-- Digits to a natural number, most significant first. -/
def digits_to_nat (l : List Char) : Nat :=
  l.foldl (fun n c => n * 10 + (c.toNat - 48)) 0

/-- First match of the regex `\$(\d+(?:\.\d+)?)` in a character list, as a
rational (`_check_cost_ceiling` parses it with `float`). -/
def parse_dollar : List Char → Option ℚ
  | [] => none
  | '$' :: rest =>
      let ds := rest.takeWhile Char.isDigit
      if ds.isEmpty then parse_dollar rest
      else
        let rest2 := rest.drop ds.length
        let intp : ℚ := (digits_to_nat ds : ℚ)
        match rest2 with
        | '.' :: r2 =>
            let fs := r2.takeWhile Char.isDigit
            if fs.isEmpty then some intp
            else some (intp + (digits_to_nat fs : ℚ) / ((10 : ℚ) ^ fs.length))
        | _ => some intp
  | _ :: rest => parse_dollar rest

/-- `_check_cost_ceiling`. -/
def check_cost_ceiling (p : StrategyProposal) (c : Constraint)
    (_w : WorldModel) : Bool :=
  match parse_dollar c.description.toList with
  | some ceiling => decide (p.estimated_cost > ceiling)
  | none => false

/-- `_generic_constraint_check`. -/
def generic_constraint_check (_p : StrategyProposal) (_c : Constraint)
    (_w : WorldModel) : Bool :=
  false

/-- `_check_constraint_violation`: rule dispatch keyed by constraint name. -/
def check_constraint_violation (p : StrategyProposal) (c : Constraint)
    (w : WorldModel) : Bool :=
  if c.name = "gdpr_consent_required" then check_gdpr_consent p c w
  else if c.name = "no_contact_outside_hours" then check_contact_hours p c w
  else if c.name = "cost_ceiling" then check_cost_ceiling p c w
  else generic_constraint_check p c w

/-- `_format_structured_reason`. -/
def format_structured_reason (violations : List String) : String :=
  String.intercalate "|" violations

/-- `_format_human_reason`.  The quotation marks the source puts around
names are dropped from the rendered text. -/
def format_human_reason (violations : List String) (p : StrategyProposal)
    (w : WorldModel) : String :=
  let parts := violations.flatMap fun v =>
    if v = "gdpr_consent_required" then
      ((p.actions.filter (fun a => outreach_types.contains a.action_type)).map
        (·.target)).flatMap fun target =>
          match wm_get w target with
          | some e =>
              let geo := pv_repr (geo_of e.properties (.s "unknown"))
              ["Entity " ++ target ++ " is " ++ geo ++ " jurisdiction. " ++
               "No GDPR consent on file. " ++
               "Direct outreach prohibited without verified consent."]
          | none => []
    else if v = "no_contact_outside_hours" then
      ["Automated outreach is restricted during this time window."]
    else
      ["Constraint " ++ v ++ " was violated."]
  if parts.isEmpty then "One or more constraints were violated."
  else String.intercalate " " parts

/-- `_serialize_active_policies`. -/
def serialize_active_policies (cs : List Constraint) : PolicySnapshot :=
  { active_constraints :=
      cs.map (fun c => (c.name, (match c.type with
        | .hard => "hard"
        | .soft => "soft"), c.description)),
    count := cs.length }

/-- `_determine_auth_level` (graduated authorization, L0-L4). -/
def determine_auth_level (max_risk : Nat) : AuthorizationLevel :=
  if max_risk ≤ 3 then .L0
  else if max_risk ≤ 5 then .L1
  else if max_risk ≤ 7 then .L2
  else if max_risk = 8 then .L3
  else .L4

/-- `_determine_auth_tier` (legacy string tiers). -/
def determine_auth_tier (max_risk : Nat) : String :=
  if max_risk ≤ 3 then "auto_execute"
  else if max_risk ≤ 6 then "notify_proceed"
  else if max_risk ≤ 8 then "require_approval"
  else "escalate"

/-! ## Structured uncertainty (`_build_uncertainty_declaration`) -/

/-- Round half to even to an integer, the semantics of Python `round`. -/
def round_half_even (q : ℚ) : Int :=
  let f := ⌊q⌋
  let r := q - f
  if r < 1/2 then f
  else if r > 1/2 then f + 1
  else if f % 2 = 0 then f else f + 1

/-- Python `round(x, 2)`. -/
def round2 (q : ℚ) : ℚ :=
  (round_half_even (q * 100) : ℚ) / 100

/-- Python `f"{conf:.0%}"`. -/
def fmt_pct (q : ℚ) : String :=
  toString (round_half_even (q * 100)) ++ "%"

/-- `_build_uncertainty_declaration`.  The source interleaves the list builds
in one pass over the actions; building each list separately in action order
yields the same lists. -/
def build_uncertainty_declaration (p : StrategyProposal) (w : WorldModel)
    (active_constraints : List Constraint)
    (_hard_violations soft_violations : List String) : UncertaintyDeclaration :=
  let lookups := p.actions.map fun a => (a.target, wm_get w a.target)
  let assumptions := lookups.flatMap fun te =>
    match te.2 with
    | some e =>
        if e.confidence < 1 then
          ["Entity " ++ te.1 ++ " data confidence is " ++ fmt_pct e.confidence ++
           " (not fully verified)"]
        else []
    | none => []
  let watch0 := lookups.flatMap fun te =>
    match te.2 with
    | some e =>
        if e.confidence < 1 then
          ["Entity " ++ te.1 ++ " data may be stale or inaccurate"]
        else []
    | none => []
  let evidence_basis := lookups.flatMap fun te =>
    match te.2 with
    | some e =>
        ["Entity " ++ te.1 ++ ": source=" ++ e.source ++ ", last_updated=" ++
         e.last_updated]
    | none => []
  let unknowns0 := lookups.flatMap fun te =>
    match te.2 with
    | some _ => []
    | none => ["No world model data for target entity " ++ te.1]
  let known_unknowns :=
    if active_constraints.isEmpty then
      unknowns0 ++ ["No active constraints evaluated — policy may be incomplete"]
    else unknowns0
  let watch_conditions :=
    if soft_violations.isEmpty then watch0
    else
      watch0 ++
        ["Soft constraints were violated: " ++
         String.intercalate ", " soft_violations ++
         ". These may indicate risk the hard constraint set does not cover."]
  let entity_confidences := lookups.flatMap fun te =>
    match te.2 with
    | some e => [e.confidence]
    | none => []
  let avg_confidence :=
    if entity_confidences.isEmpty then (1 : ℚ)/2
    else entity_confidences.foldl (· + ·) 0 / (entity_confidences.length : ℚ)
  let c1 := if soft_violations.isEmpty then avg_confidence
            else avg_confidence * (9/10)
  let c2 := if known_unknowns.isEmpty then c1 else c1 * (8/10)
  { assumptions := assumptions,
    watch_conditions := watch_conditions,
    evidence_basis := evidence_basis,
    known_unknowns := known_unknowns,
    confidence_level := round2 (min 1 (max 0 c2)) }

/-! ## Intent conflicts and the action-type registry -/

/-- The empty world model `_detect_intent_conflicts` evaluates against (the
wall-clock `last_reconciled` it carries is never read by the checks). -/
def empty_world : WorldModel :=
  { entities := [], last_reconciled := "" }

/-- `_detect_intent_conflicts`: active intents other than the serving one
whose hard constraints the proposal violates in isolation.  The source
returns `None` for the empty list; emptiness is tested at the call site. -/
def detect_intent_conflicts (p : StrategyProposal)
    (intents : List IntentVector) : List IntentVector :=
  (intents.filter fun i => i.id ≠ p.intent_id && i.active).filter fun i =>
    i.hard_constraints.any fun c => check_constraint_violation p c empty_world

/-- The primary intent of `resolve_intent_conflict`: head of the stable sort
of `serving :: conflicting` by priority descending, i.e. the first intent of
maximal priority. -/
def conflict_primary (serving : IntentVector)
    (conflicting : List IntentVector) : IntentVector :=
  conflicting.foldl (fun best i => if i.priority > best.priority then i else best)
    serving

/-- The five baseline entries of the Action Type Registry. -/
def baseline_action_types : List ActionTypeSpec :=
  [{ type_id := "task_execution",
     description := "Executing an operational task within an existing capability",
     risk_profile := { impact_scope := "local", reversibility := "reversible",
                       blast_radius := "narrow" },
     default_authorization_level := .L0 },
   { type_id := "skill_modification",
     description := "Modifying the instructions, criteria, or parameters of an existing capability",
     risk_profile := { impact_scope := "team",
                       reversibility := "partially_reversible",
                       blast_radius := "moderate" },
     default_authorization_level := .L2 },
   { type_id := "drift_reconciliation",
     description := "Autonomous corrective action when world state diverges from declared intent",
     risk_profile := { impact_scope := "local", reversibility := "reversible",
                       blast_radius := "narrow" },
     default_authorization_level := .L1 },
   { type_id := "escalation",
     description := "Routing a decision to human authority at the systems authorized boundary",
     risk_profile := { impact_scope := "local", reversibility := "reversible",
                       blast_radius := "narrow" },
     default_authorization_level := .L0 },
   { type_id := "policy_proposal",
     description := "Proposing a change to governance policy (human decides)",
     risk_profile := { impact_scope := "org", reversibility := "reversible",
                       blast_radius := "wide" },
     default_authorization_level := .L4 }]

/-- Registry lookup (`self._action_type_registry.get(type_id)`). -/
def registry_get (reg : List ActionTypeSpec) (type_id : String) :
    Option ActionTypeSpec :=
  reg.find? fun s => s.type_id == type_id

/-- `validate_action_type`. -/
def validate_action_type (reg : List ActionTypeSpec) (action_type : String) :
    Bool :=
  (registry_get reg action_type).isSome

/-! ## Active constraints and multi-phase authorization -/

/-- `_get_active_constraints`. -/
def get_active_constraints (cron_match : String → Dt → Bool)
    (intents : List IntentVector) (t : Dt) : List Constraint :=
  (intents.filter (·.active)).flatMap fun i =>
    (i.hard_constraints ++ i.soft_constraints).filter fun c =>
      c.activation.always || is_constraint_active cron_match c t

/-- Names of the violated active hard constraints, in active-set order (the
loop in step 2 of `evaluate_proposal` and in `evaluate_phase`). -/
def hard_violation_names (cron_match : String → Dt → Bool)
    (p : StrategyProposal) (intents : List IntentVector) (w : WorldModel)
    (t : Dt) : List String :=
  (((get_active_constraints cron_match intents t).filter
      fun c => c.type = ConstraintType.hard).filter
    fun c => check_constraint_violation p c w).map (·.name)

/-- Names of the violated active soft constraints (step 3). -/
def soft_violation_names (cron_match : String → Dt → Bool)
    (p : StrategyProposal) (intents : List IntentVector) (w : WorldModel)
    (t : Dt) : List String :=
  (((get_active_constraints cron_match intents t).filter
      fun c => c.type = ConstraintType.soft).filter
    fun c => check_constraint_violation p c w).map (·.name)

/-- `evaluate_phase`. -/
def evaluate_phase (cron_match : String → Dt → Bool) (phase : PhaseConfig)
    (p : StrategyProposal) (intents : List IntentVector) (w : WorldModel)
    (t : Dt) (prior_phase_results : List GovernancePhaseResult) :
    GovernancePhaseResult :=
  let hard_violations := hard_violation_names cron_match p intents w t
  if hard_violations ≠ [] then
    { phase_name := phase.phase_name,
      verdict := .rejected,
      authorization_level := phase.default_authorization_level,
      violated_constraints := hard_violations,
      rejection_reason := some (format_structured_reason hard_violations),
      rejection_detail := some (format_human_reason hard_violations p w),
      evaluated_at := t.iso }
  else
    let auth_level :=
      if phase.escalation_on_deviation &&
          prior_phase_results.any (·.verdict = GovernanceVerdict.approved) &&
          phase.default_authorization_level.val < AuthorizationLevel.L2.val then
        AuthorizationLevel.L2
      else phase.default_authorization_level
    { phase_name := phase.phase_name,
      verdict := .approved,
      authorization_level := auth_level,
      violated_constraints := [],
      evaluated_at := t.iso }

/-- Worker of `evaluate_multi_phase`: evaluate phases in order, stopping
after a required phase that is not approved. -/
def multi_phase_go (cron_match : String → Dt → Bool) (p : StrategyProposal)
    (intents : List IntentVector) (w : WorldModel) (t : Dt) :
    List PhaseConfig → List GovernancePhaseResult → List GovernancePhaseResult
  | [], acc => acc
  | phase :: rest, acc =>
      let r := evaluate_phase cron_match phase p intents w t acc
      let acc2 := acc ++ [r]
      if phase.required && r.verdict ≠ GovernanceVerdict.approved then acc2
      else multi_phase_go cron_match p intents w t rest acc2

/-- `evaluate_multi_phase`. -/
def evaluate_multi_phase (cron_match : String → Dt → Bool)
    (phases : List PhaseConfig) (p : StrategyProposal)
    (intents : List IntentVector) (w : WorldModel) (t : Dt) :
    List GovernancePhaseResult :=
  multi_phase_go cron_match p intents w t phases []

/-! ## Core evaluation (`GovernanceKernel.evaluate_proposal`) -/

/-- The decision returned by step 0 on an unregistered action type. -/
def unregistered_rejection (decision_id : String) (p : StrategyProposal)
    (atid : String) (t : Dt) : GovernanceDecision :=
  { id := decision_id,
    proposal_id := p.id,
    verdict := .rejected,
    violated_constraints := [],
    rejection_reason := some "unregistered_action_type",
    rejection_detail := some
      ("Action type " ++ atid ++ " is not registered in the " ++
       "Action Type Registry. The system cannot take actions " ++
       "outside its registered governance configuration."),
    action_type_id := some atid,
    temporal_context := some (get_temporal_snapshot t),
    policy_snapshot := none,
    evaluated_at := t.iso }

/-- `max(a.risk_score for a in proposal.actions, default=1)`. -/
def max_risk_of (actions : List PlannedAction) : Nat :=
  match actions with
  | [] => 1
  | a :: rest => rest.foldl (fun m b => max m b.risk_score) a.risk_score

/-- Step-0 guard condition: `if action_type_id and not
self.validate_action_type(action_type_id)`.  An empty string is falsy in
Python, so it never trips the guard. -/
def unregistered_guard (reg : List ActionTypeSpec)
    (action_type_id : Option String) : Bool :=
  match action_type_id with
  | some s => s ≠ "" && ! validate_action_type reg s
  | none => false

/-- The action-type override of step 4 (`if action_type_id:` plus the
`.value` comparison): raise the risk-derived level to the registered default
when the latter is strictly higher. -/
def apply_action_type_level (reg : List ActionTypeSpec)
    (action_type_id : Option String) (auth_level : AuthorizationLevel) :
    AuthorizationLevel :=
  match action_type_id with
  | some s =>
      if s ≠ "" then
        match registry_get reg s with
        | some spec =>
            if spec.default_authorization_level.val > auth_level.val then
              spec.default_authorization_level
            else auth_level
        | none => auth_level
      else auth_level
  | none => auth_level

/-- `GovernanceKernel.evaluate_proposal`.  `reg` is the kernel's action-type
registry, `decision_id` the uuid-generated identifier and `t` the evaluation
instant (`current_time`). -/
def evaluate_proposal (reg : List ActionTypeSpec)
    (cron_match : String → Dt → Bool) (p : StrategyProposal)
    (intents : List IntentVector) (w : WorldModel) (t : Dt)
    (action_type_id : Option String) (decision_id : String) :
    GovernanceDecision :=
  if unregistered_guard reg action_type_id then
    unregistered_rejection decision_id p (action_type_id.getD "") t
  else
    let active_constraints := get_active_constraints cron_match intents t
    let hard_violations := hard_violation_names cron_match p intents w t
    let soft_violations := soft_violation_names cron_match p intents w t
    let uncertainty := build_uncertainty_declaration p w active_constraints
      hard_violations soft_violations
    if hard_violations ≠ [] then
      { id := decision_id,
        proposal_id := p.id,
        verdict := .rejected,
        violated_constraints := hard_violations,
        rejection_reason := some (format_structured_reason hard_violations),
        rejection_detail := some (format_human_reason hard_violations p w),
        temporal_context := some (get_temporal_snapshot t),
        policy_snapshot := some (serialize_active_policies active_constraints),
        evaluated_at := t.iso,
        uncertainty := some uncertainty,
        action_type_id := action_type_id }
    else
      let max_risk := max_risk_of p.actions
      let auth_level0 := determine_auth_level max_risk
      let tier := determine_auth_tier max_risk
      let auth_level := apply_action_type_level reg action_type_id auth_level0
      if tier = "escalate" then
        { id := decision_id,
          proposal_id := p.id,
          verdict := .escalate,
          violated_constraints := [],
          rejection_reason := some "risk_exceeds_system_authority",
          rejection_detail := some
            ("Maximum risk score " ++ toString max_risk ++
             " exceeds system authority threshold."),
          authorization_level := some auth_level,
          authorization_tier := some tier,
          temporal_context := some (get_temporal_snapshot t),
          policy_snapshot := some (serialize_active_policies active_constraints),
          evaluated_at := t.iso,
          uncertainty := some uncertainty,
          action_type_id := action_type_id }
      else
        let conflicts := detect_intent_conflicts p intents
        let conflict_decision : Option GovernanceDecision :=
          if conflicts ≠ [] then
            match intents.find? (fun i => i.id == p.intent_id) with
            | some serving =>
                let primary := conflict_primary serving conflicts
                if primary.id ≠ serving.id then
                  some { id := decision_id,
                         proposal_id := p.id,
                         verdict := .escalate,
                         violated_constraints := [],
                         rejection_reason := some "unresolvable_intent_conflict",
                         rejection_detail := some
                           ("Intent conflict between [" ++
                            String.intercalate ", "
                              ((serving :: conflicts).map (·.id)) ++
                            "]. Serving intent " ++ serving.id ++
                            " is not highest priority."),
                         authorization_level := some auth_level,
                         authorization_tier := some tier,
                         temporal_context := some (get_temporal_snapshot t),
                         policy_snapshot :=
                           some (serialize_active_policies active_constraints),
                         evaluated_at := t.iso,
                         uncertainty := some uncertainty,
                         action_type_id := action_type_id }
                else none
            | none => none
          else none
        match conflict_decision with
        | some d => d
        | none =>
            let phase_results :=
              match action_type_id with
              | some s =>
                  if s ≠ "" then
                    match registry_get reg s with
                    | some spec =>
                        if spec.phase_config ≠ [] then
                          evaluate_multi_phase cron_match spec.phase_config p
                            intents w t
                        else []
                    | none => []
                  else []
              | none => []
            match phase_results.find?
                (fun pr => pr.verdict ≠ GovernanceVerdict.approved) with
            | some pr =>
                { id := decision_id,
                  proposal_id := p.id,
                  verdict := pr.verdict,
                  violated_constraints := pr.violated_constraints,
                  rejection_reason := pr.rejection_reason,
                  rejection_detail := pr.rejection_detail,
                  authorization_level := some auth_level,
                  authorization_tier := some tier,
                  temporal_context := some (get_temporal_snapshot t),
                  policy_snapshot :=
                    some (serialize_active_policies active_constraints),
                  evaluated_at := t.iso,
                  uncertainty := some uncertainty,
                  action_type_id := action_type_id,
                  phase_results := phase_results }
            | none =>
                { id := decision_id,
                  proposal_id := p.id,
                  verdict := .approved,
                  violated_constraints := soft_violations,
                  authorization_level := some auth_level,
                  authorization_tier := some tier,
                  temporal_context := some (get_temporal_snapshot t),
                  policy_snapshot :=
                    some (serialize_active_policies active_constraints),
                  evaluated_at := t.iso,
                  uncertainty := some uncertainty,
                  action_type_id := action_type_id,
                  phase_results := phase_results }

/-! ## Execution fabric (execution/fabric.py) -/

/-- Outcome dict of `_dispatch_action` for one action.  Durations come from
`time.monotonic` and are modelled as zero. -/
structure ActionOutcome where
  action_type : String
  target : String
  success : Bool
  data : Option Props := none
  error : Option String := none
  duration : ℚ := 0
deriving Repr

/-- models/execution.py ExecutionResult. -/
structure ExecutionResult where
  proposal_id : String
  actions_completed : List ActionOutcome
  actions_failed : List ActionOutcome
  success : Bool
  world_state_changes : List Props
  executed_at : String
  execution_duration_seconds : ℚ := 0
deriving Repr

/-- An executor callable: receives the action, may read and mutate the world
model (the Python mocks mutate `self.world_model` in place), and either
returns a result payload or raises (modelled by `Except.error` carrying
`str(e)`). -/
abbrev ExecFn := PlannedAction → WorldModel → Except String Props × WorldModel

/-- Dict assignment `props[k] = v`: replace in place or append. -/
def props_set (ps : Props) (k : String) (v : PropVal) : Props :=
  if ps.any (fun kv => kv.1 == k) then
    ps.map (fun kv => if kv.1 == k then (kv.1, v) else kv)
  else ps ++ [(k, v)]

/-- Replace an entity in the world model's entity dict. -/
def wm_set (w : WorldModel) (k : String) (e : EntityState) : WorldModel :=
  { w with entities :=
      if w.entities.any (fun kv => kv.1 == k) then
        w.entities.map (fun kv => if kv.1 == k then (kv.1, e) else kv)
      else w.entities ++ [(k, e)] }

/-- `ExecutionFabric._dispatch_action`. -/
def dispatch_action (executors : List (String × ExecFn)) (w : WorldModel)
    (a : PlannedAction) : ActionOutcome × WorldModel :=
  match (executors.find? (fun kv => kv.1 == a.action_type)).map (·.2) with
  | none =>
      ({ action_type := a.action_type, target := a.target, success := false,
         error := some ("No executor registered for action type: " ++
           a.action_type) }, w)
  | some f =>
      match f a w with
      | (.ok payload, w') =>
          ({ action_type := a.action_type, target := a.target, success := true,
             data := some payload }, w')
      | (.error e, w') =>
          ({ action_type := a.action_type, target := a.target, success := false,
             error := some e }, w')

/-- `ExecutionFabric._apply_state_changes`.  `now_iso` models the
`datetime.utcnow().isoformat()` reads. -/
def apply_state_changes (now_iso : String) (w : WorldModel)
    (a : PlannedAction) : List Props × WorldModel :=
  match wm_get w a.target with
  | some e =>
      if ["send_email", "route_to_human", "automated_outreach"].contains
          a.action_type then
        let e' := { e with
          properties := props_set
            (props_set e.properties "last_contacted" (.s now_iso))
            "contact_method" (.s a.action_type),
          last_updated := now_iso }
        ([[("entity_id", .s a.target), ("field", .s "last_contacted"),
           ("new_value", .s now_iso), ("source", .s a.action_type)]],
         wm_set w a.target e')
      else ([], w)
  | none => ([], w)

/-- Worker of `ExecutionFabric.execute`: the per-action loop, threading the
world model and collecting completed actions, failed actions and state
changes in order. -/
def execute_actions (executors : List (String × ExecFn)) (now_iso : String) :
    List PlannedAction →
    WorldModel → List ActionOutcome → List ActionOutcome → List Props →
    List ActionOutcome × List ActionOutcome × List Props × WorldModel
  | [], w, completed, failed, changes => (completed, failed, changes, w)
  | a :: rest, w, completed, failed, changes =>
      let (outcome, w1) := dispatch_action executors w a
      if outcome.success then
        let (chg, w2) := apply_state_changes now_iso w1 a
        execute_actions executors now_iso rest w2 (completed ++ [outcome])
          failed (changes ++ chg)
      else
        execute_actions executors now_iso rest w1 completed
          (failed ++ [outcome]) changes

/-- `ExecutionFabric.execute`.  The unapproved-verdict guard raises
`ExecutionError` (modelled as `Except.error` with the message the source
formats); on the error path the world model is returned untouched and no
action is dispatched. -/
def fabric_execute (executors : List (String × ExecFn)) (now_iso : String)
    (w : WorldModel) (p : StrategyProposal) (d : GovernanceDecision) :
    Except String ExecutionResult × WorldModel :=
  if d.verdict ≠ GovernanceVerdict.approved then
    (.error ("Cannot execute proposal " ++ p.id ++ ": governance verdict is " ++
       verdict_value d.verdict ++ ", not approved."), w)
  else
    let (completed, failed, changes, w') :=
      execute_actions executors now_iso p.actions w [] [] []
    (.ok { proposal_id := p.id,
           actions_completed := completed,
           actions_failed := failed,
           success := failed.isEmpty,
           world_state_changes := changes,
           executed_at := now_iso }, w')

/-- `_mock_send_email`. -/
def mock_send_email : ExecFn := fun a w =>
  (.ok [("status", .s "sent"), ("message_id", .s ("msg_" ++ a.target ++ "_email"))], w)

/-- `_mock_send_sms`. -/
def mock_send_sms : ExecFn := fun a w =>
  (.ok [("status", .s "sent"), ("message_id", .s ("msg_" ++ a.target ++ "_sms"))], w)

/-- `_mock_query_crm`.  The nested properties dict of the payload is inlined
after the `found` flag (the flat `PropVal` carries no nested dicts). -/
def mock_query_crm : ExecFn := fun a w =>
  match wm_get w a.target with
  | some e => (.ok ([("found", .b true)] ++ e.properties), w)
  | none => (.ok [("found", .b false)], w)

/-- `_mock_route_to_human`. -/
def mock_route_to_human : ExecFn := fun a w =>
  (.ok [("status", .s "routed"),
        ("queue", (props_get a.parameters "queue").getD (.s "default")),
        ("context_attached", .b true)], w)

/-- `_mock_automated_outreach`. -/
def mock_automated_outreach : ExecFn := fun _a w =>
  (.ok [("status", .s "sent"), ("channel", .s "automated")], w)

/-- `_mock_direct_call`. -/
def mock_direct_call : ExecFn := fun a w =>
  (.ok [("status", .s "initiated"), ("call_id", .s ("call_" ++ a.target))], w)

/-- `_mock_update_record`.  The nested `updates` dict of the parameters is
carried under dotted `updates.`-prefixed keys in the flat parameter map. -/
def mock_update_record (now_iso : String) : ExecFn := fun a w =>
  match wm_get w a.target with
  | some e =>
      let updates := a.parameters.filterMap fun kv =>
        if kv.1.startsWith "updates." then some (kv.1.drop 8, kv.2) else none
      let e' := { e with
        properties := updates.foldl (fun ps kv => props_set ps kv.1 kv.2)
          e.properties,
        last_updated := now_iso }
      (.ok [("status", .s "updated"), ("fields", .strs (updates.map (·.1)))],
       wm_set w a.target e')
  | none => (.ok [("status", .s "not_found")], w)

/-- `_register_default_executors`. -/
def default_executors (now_iso : String) : List (String × ExecFn) :=
  [("send_email", mock_send_email),
   ("send_sms", mock_send_sms),
   ("query_crm", mock_query_crm),
   ("route_to_human", mock_route_to_human),
   ("automated_outreach", mock_automated_outreach),
   ("direct_call", mock_direct_call),
   ("update_record", mock_update_record now_iso)]

/-! ## Rule-based strategy generation (strategy/cga_loop.py) -/

/-- The dict form of a reconciler drift event, as consumed through
`drift_event.get(...)` with defaults. -/
structure DriftEventDict where
  entity_id : Option String := none
  intent_id : Option String := none
  description : Option String := none
  severity : Option Nat := none
  sla_remaining_minutes : Option ℚ := none
  detected_at : Option String := none
deriving DecidableEq, Repr

/-- One accumulated-rejection entry of the CGA loop (`{"source": ...,
"constraint": ..., "detail": ...}`). -/
structure AccEntry where
  source : String
  constraint : String
  detail : String
deriving DecidableEq, Repr

/-- Bool-valued list-of-chars prefix test. -/
def chars_start_with : List Char → List Char → Bool
  | [], _ => true
  | _ :: _, [] => false
  | p :: ps, c :: cs => p == c && chars_start_with ps cs

/-- Bool-valued substring test on char lists. -/
def chars_contain (pat : List Char) : List Char → Bool
  | [] => chars_start_with pat []
  | c :: cs => chars_start_with pat (c :: cs) || chars_contain pat cs

/-- Python `pat in s` on strings. -/
def str_contains (s pat : String) : Bool :=
  chars_contain pat.toList s.toList

/-- `RuleBasedStrategyGenerator._rule_direct_automated_outreach`
(ladder rung 1). -/
def rule_direct_automated_outreach (drift : DriftEventDict) :
    List PlannedAction :=
  [{ action_type := "send_email",
     target := drift.entity_id.getD "unknown",
     parameters := [("template", .s "high_value_lead_response"),
                    ("personalized", .b true)],
     requires_consent := false,
     reversible := true,
     risk_score := 3 }]

/-- `RuleBasedStrategyGenerator._rule_query_then_outreach` (ladder rung 2). -/
def rule_query_then_outreach (drift : DriftEventDict) : List PlannedAction :=
  [{ action_type := "query_crm",
     target := drift.entity_id.getD "unknown",
     parameters := [("fields", .strs ["gdpr_consent", "contact_preferences"])],
     requires_consent := false,
     reversible := true,
     risk_score := 1 },
   { action_type := "send_email",
     target := drift.entity_id.getD "unknown",
     parameters := [("template", .s "high_value_lead_response"),
                    ("conditional", .s "if_consent_verified")],
     requires_consent := true,
     reversible := true,
     risk_score := 3 }]

/-- `RuleBasedStrategyGenerator._rule_human_handoff` (ladder rung 3).  The
nested context dict of the source is carried under dotted keys in the flat
parameter map. -/
def rule_human_handoff (drift : DriftEventDict) : List PlannedAction :=
  [{ action_type := "route_to_human",
     target := drift.entity_id.getD "unknown",
     parameters :=
       [("queue", .s "sales_queue"),
        ("context.reason",
         .s "GDPR compliance requires human-initiated first contact"),
        ("context.consent_capture_form", .b true),
        ("context.sla_remaining_minutes",
         .q (drift.sla_remaining_minutes.getD 2)),
        ("priority", .s "urgent")],
     requires_consent := false,
     reversible := true,
     risk_score := 2 }]

/-- `RuleBasedStrategyGenerator._would_violate_accumulated`.  Rung 1 is
blocked by any accumulated constraint containing "gdpr"; rung 2 only by one
containing "no consent" or "no_consent". -/
def would_violate_accumulated (rule_index : Nat)
    (accumulated_constraints : List AccEntry) : Bool :=
  let constraint_names := accumulated_constraints.map (·.constraint)
  if rule_index = 0 then
    constraint_names.any fun c => str_contains (str_lower c) "gdpr"
  else if rule_index = 1 then
    constraint_names.any fun c =>
      str_contains (str_lower c) "no consent" ||
        str_contains (str_lower c) "no_consent"
  else false

/-- The registered rule ladder, indexed as `self._rules`. -/
def ladder_rule (i : Nat) (drift : DriftEventDict) : List PlannedAction :=
  if i = 0 then rule_direct_automated_outreach drift
  else if i = 1 then rule_query_then_outreach drift
  else rule_human_handoff drift

/-- `RuleBasedStrategyGenerator._estimate_cost`. -/
def estimate_cost (actions : List PlannedAction) : ℚ :=
  (actions.map fun a =>
    if a.action_type = "send_email" then (1 : ℚ)/10
    else if a.action_type = "send_sms" then 3/20
    else if a.action_type = "query_crm" then 1/20
    else if a.action_type = "route_to_human" then 5
    else if a.action_type = "automated_outreach" then 1/5
    else if a.action_type = "direct_call" then 1
    else if a.action_type = "update_record" then 1/50
    else 1/2).foldl (· + ·) 0

/-- `RuleBasedStrategyGenerator._describe_plan`. -/
def describe_plan (actions : List PlannedAction) : String :=
  String.intercalate "; "
    ((actions.enum.map fun ai =>
      toString (ai.1 + 1) ++ ". " ++ ai.2.action_type ++ " → " ++ ai.2.target))

/-- `RuleBasedStrategyGenerator._build_rationale`. -/
def build_rationale (attempt : Nat) (accumulated_constraints : List AccEntry)
    (actions : List PlannedAction) : String :=
  if attempt = 1 then
    "First attempt: direct automated approach for fastest SLA compliance."
  else
    "Attempt " ++ toString attempt ++ ": adapted strategy to avoid [" ++
    String.intercalate ", " (accumulated_constraints.map (·.constraint)) ++
    "]. Using [" ++ String.intercalate ", " (actions.map (·.action_type)) ++
    "]."

/-- The effective ladder index chosen by `RuleBasedStrategyGenerator.generate`:
starting from `min(attempt_number - 1, 2)`, the first index whose pattern does
not violate the accumulated constraints, falling back to the safest rung. -/
def effective_rule_index (attempt_number : Nat)
    (accumulated_constraints : List AccEntry) : Nat :=
  let rule_index := min (attempt_number - 1) 2
  match (List.range' rule_index (3 - rule_index)).find?
      (fun i => ! would_violate_accumulated i accumulated_constraints) with
  | some i => i
  | none => 2

/-- `RuleBasedStrategyGenerator.generate`.  `proposal_id` and `now_iso` model
the uuid and `datetime.utcnow()` reads. -/
def generator_generate (proposal_id now_iso : String) (intent : IntentVector)
    (drift : DriftEventDict) (accumulated_constraints : List AccEntry)
    (prior_proposals : List StrategyProposal) (attempt_number : Nat) :
    StrategyProposal :=
  let actions := ladder_rule
    (effective_rule_index attempt_number accumulated_constraints) drift
  { id := proposal_id,
    intent_id := intent.id,
    attempt_number := attempt_number,
    plan_description := describe_plan actions,
    actions := actions,
    estimated_cost := estimate_cost actions,
    rationale := build_rationale attempt_number accumulated_constraints actions,
    prior_rejection_id := (prior_proposals.getLast?).map (·.id),
    generated_at := now_iso }

/-! ## The CGA loop (strategy/cga_loop.py CGALoop.run) -/

/-- Result object of one CGA run (`CGAResult`), restricted to the fields the
loop fills in. -/
structure CGAResult where
  proposals : List StrategyProposal
  decisions : List GovernanceDecision
  accumulated_constraints : List AccEntry
  final_verdict : String
  approved_proposal : Option StrategyProposal
  execution_result : Option ExecutionResult
  total_attempts : Nat
  escalated : Bool

/-- The accumulated-rejection entry built from a rejected decision. -/
def acc_of_decision (d : GovernanceDecision) : AccEntry :=
  { source := "governance_rejection_" ++ d.id,
    constraint := d.rejection_reason.getD "",
    detail := d.rejection_detail.getD "" }

/-- Worker of `CGALoop.run`.  `gen` is the injected strategy generator
(called with the attempt number, the accumulated constraints and the prior
proposals), `evalD` the governance evaluation of one proposal, and `execF`
the execution-fabric dispatch; the source wires these through `self`.
`fuel` is the remaining attempt budget, `attempt` the loop counter so far. -/
def cga_go (gen : Nat → List AccEntry → List StrategyProposal → StrategyProposal)
    (evalD : StrategyProposal → GovernanceDecision)
    (execF : StrategyProposal → GovernanceDecision → ExecutionResult) :
    Nat → Nat → List StrategyProposal → List GovernanceDecision →
    List AccEntry → CGAResult
  | 0, attempt, ps, ds, acc =>
      { proposals := ps, decisions := ds, accumulated_constraints := acc,
        final_verdict := "escalated", approved_proposal := none,
        execution_result := none, total_attempts := attempt, escalated := true }
  | fuel + 1, attempt, ps, ds, acc =>
      let attempt1 := attempt + 1
      let p := gen attempt1 acc ps
      let ps1 := ps ++ [p]
      let d := evalD p
      let ds1 := ds ++ [d]
      if d.verdict = GovernanceVerdict.approved then
        { proposals := ps1, decisions := ds1, accumulated_constraints := acc,
          final_verdict := "approved", approved_proposal := some p,
          execution_result := some (execF p d), total_attempts := attempt1,
          escalated := false }
      else if d.verdict = GovernanceVerdict.escalate then
        { proposals := ps1, decisions := ds1, accumulated_constraints := acc,
          final_verdict := "escalated", approved_proposal := none,
          execution_result := none, total_attempts := attempt1,
          escalated := true }
      else
        cga_go gen evalD execF fuel attempt1 ps1 ds1 (acc ++ [acc_of_decision d])

/-- `CGALoop.run` with `max_attempts` as the retry budget. -/
def cga_run (gen : Nat → List AccEntry → List StrategyProposal → StrategyProposal)
    (evalD : StrategyProposal → GovernanceDecision)
    (execF : StrategyProposal → GovernanceDecision → ExecutionResult)
    (max_attempts : Nat) : CGAResult :=
  cga_go gen evalD execF max_attempts 0 [] [] []

/-! ## Reconciler dampening (reconciler/loop.py, models/reconciler.py)

Time is modelled in seconds as naturals; each reconciliation tick carries its
`current_time`.  The per-entity slice of `reconcile_once` is modelled: with
the single registered Tier-0 drift rule an entity yields at most one drift
event per tick, abstracted as the flag `has_drift`, and the CGA cycle outcome
as the flag `escalated` (`cga_result.escalated`, passed to
`_update_dampening` as `failed`). -/

/-- models/reconciler.py ReconcilerConfig. -/
structure ReconcilerConfig where
  heartbeat_interval_seconds : Nat := 60
  drift_threshold : ℚ := 7/10
  max_retry_budget : Nat := 3
  cooldown_seconds : Nat := 300
  circuit_breaker_threshold : Nat := 5
deriving DecidableEq, Repr

/-- models/reconciler.py DampeningState. -/
structure DampeningState where
  entity_id : String
  last_intervention_at : Nat
  consecutive_failures : Nat := 0
  cooldown_until : Option Nat := none
  circuit_broken : Bool := false
deriving DecidableEq, Repr

/-- `ReconcilerLoop._is_dampened`. -/
def is_dampened (state : Option DampeningState) (current_time : Nat) : Bool :=
  match state with
  | none => false
  | some st =>
      if st.circuit_broken then true
      else
        match st.cooldown_until with
        | some cu => decide (current_time < cu)
        | none => false

/-- `ReconcilerLoop._update_dampening`. -/
def update_dampening (cfg : ReconcilerConfig) (entity_id : String)
    (state : Option DampeningState) (failed : Bool) (current_time : Nat) :
    DampeningState :=
  let st := state.getD
    { entity_id := entity_id, last_intervention_at := current_time }
  let st1 := { st with
    last_intervention_at := current_time,
    cooldown_until := some (current_time + cfg.cooldown_seconds) }
  if failed then
    let cf := st1.consecutive_failures + 1
    { st1 with
      consecutive_failures := cf,
      circuit_broken := st1.circuit_broken || cf ≥ cfg.circuit_breaker_threshold }
  else
    { st1 with consecutive_failures := 0 }

/-- One reconciliation tick as seen by one entity. -/
structure TickInput where
  now : Nat
  has_drift : Bool
  escalated : Bool
deriving DecidableEq, Repr

/-- The per-entity step of `reconcile_once`: a dampened entity is skipped
before drift detection; otherwise a drift event runs one CGA cycle
(`_handle_drift`), which updates the dampening state.  Returns the new
dampening state and whether a CGA cycle ran. -/
def reconciler_tick (cfg : ReconcilerConfig) (entity_id : String)
    (state : Option DampeningState) (inp : TickInput) :
    Option DampeningState × Bool :=
  if is_dampened state inp.now then (state, false)
  else if inp.has_drift then
    (some (update_dampening cfg entity_id state inp.escalated inp.now), true)
  else (state, false)

/-- A sequence of ticks for one entity, returning the final dampening state
and, per tick in order, whether a CGA cycle ran. -/
def reconciler_trace (cfg : ReconcilerConfig) (entity_id : String) :
    Option DampeningState → List TickInput → Option DampeningState × List Bool
  | st, [] => (st, [])
  | st, inp :: rest =>
      let (st1, ran) := reconciler_tick cfg entity_id st inp
      let (st2, rans) := reconciler_trace cfg entity_id st1 rest
      (st2, ran :: rans)

/-! ## Decision lineage ledger (lineage/store.py)

A stored row keeps the parsed `record_json` (the full lineage record,
including the signature and prior-record-hash fields serialized inside it)
together with the `signature` and `prior_record_hash` scalar columns.
`sha256_canon` abstracts `sha256(json.dumps(record.model_dump(),
sort_keys=True).encode()).hexdigest()`; `append` and
`verify_chain_integrity` both apply it to the record with the signature
field zeroed, exactly as the source does. -/

/-- models/lineage.py LineageRecord.  Datetimes as ISO strings,
`execution_result` and `world_state_snapshot` in their model forms. -/
structure LineageRecord where
  id : String
  cycle_id : String
  intent : IntentVector
  drift_detected : String
  drift_severity : Nat
  world_state_snapshot : List (String × EntityState)
  proposals : List StrategyProposal
  governance_decisions : List GovernanceDecision
  final_approved_proposal : Option String := none
  execution_success : Bool := false
  total_attempts : Nat
  escalated_to_human : Bool := false
  human_authorization_token : Option String := none
  resolved_at : Option String := none
  resolution_duration_seconds : Option ℚ := none
  conflicting_intents : Option (List String) := none
  priority_override_applied : Bool := false
  deprioritized_intent : Option String := none
  deprioritization_rationale : Option String := none
  uncertainty : Option UncertaintyDeclaration := none
  signature : String := ""
  prior_record_hash : Option String := none
deriving DecidableEq, Repr

/-- The record with its signature field zeroed before hashing
(`record_dict["signature"] = ""`). -/
def zero_signature (r : LineageRecord) : LineageRecord :=
  { r with signature := "" }

/-- A row of the `lineage` table: the parsed `record_json` plus the
`signature` and `prior_record_hash` scalar columns the insert projects out. -/
structure LedgerRow where
  record : LineageRecord
  signature_col : String
  prior_col : Option String
deriving DecidableEq, Repr

/-- `LineageStore._get_latest_hash`: signature column of the last row. -/
def latest_hash (rows : List LedgerRow) : Option String :=
  (rows.getLast?).map (·.signature_col)

/-- `LineageStore.append`: set `prior_record_hash` from the latest signature,
sign the record with the signature field zeroed, store the full record with
both scalar projections. -/
def ledger_append (sha256_canon : LineageRecord → String)
    (rows : List LedgerRow) (record : LineageRecord) : List LedgerRow :=
  let prior := latest_hash rows
  let r1 := { record with prior_record_hash := prior }
  let sig := sha256_canon (zero_signature r1)
  let r2 := { r1 with signature := sig }
  rows ++ [{ record := r2, signature_col := sig, prior_col := prior }]

/-- The per-row check of `verify_chain_integrity`: recompute the signature of
the parsed record with its signature field zeroed and compare with the
signature inside the record; for a non-first row, compare the record's
`prior_record_hash` with the *previous row's signature column*.  The genesis
branch of the source is a no-op (`pass`). -/
def verify_row (sha256_canon : LineageRecord → String)
    (prev : Option LedgerRow) (row : LedgerRow) : Bool :=
  (row.record.signature == sha256_canon (zero_signature row.record)) &&
    match prev with
    | none => true
    | some pr => row.record.prior_record_hash == some pr.signature_col

/-- Worker of `verify_chain_integrity` over the remaining rows, carrying the
previous row. -/
def verify_chain_go (sha256_canon : LineageRecord → String) :
    Option LedgerRow → List LedgerRow → Bool
  | _, [] => true
  | prev, row :: rest =>
      verify_row sha256_canon prev row &&
        verify_chain_go sha256_canon (some row) rest

/-- `LineageStore.verify_chain_integrity` (an empty table verifies). -/
def verify_chain_integrity (sha256_canon : LineageRecord → String)
    (rows : List LedgerRow) : Bool :=
  verify_chain_go sha256_canon none rows

/-! ## Shared concrete fixtures for witnesses and counterexamples -/

/-- A fixed evaluation instant. -/
def t0 : Dt := { iso := "2026-02-20T10:00:00", hour := 10, weekday := "Friday" }

/-- A cron matcher that never matches; the fixtures only use `always`
constraints. -/
def never_cron : String → Dt → Bool := fun _ _ => false

/-- An empty world model. -/
def world0 : WorldModel := { last_reconciled := "2026-02-20T09:59:00" }

/-- A trivial empty-action proposal used by several fixtures. -/
def prop0 (pid iid : String) (cost : ℚ) : StrategyProposal :=
  { id := pid, intent_id := iid, attempt_number := 1, plan_description := "",
    actions := [], estimated_cost := cost, rationale := "",
    generated_at := "2026-02-20T10:00:00" }

/-- A rejected decision fixture. -/
def dec_rejected0 : GovernanceDecision :=
  { id := "gov_w1", proposal_id := "prop_w1",
    verdict := .rejected, evaluated_at := "2026-02-20T10:00:00" }

/-- Claim C1: `ExecutionFabric.execute` completes normally only when the
decision verdict is APPROVED; on any other verdict it fails with the
`ExecutionError` guard (the spec's `UnapprovedExecution` error kind) carrying
the formatted message, and no action is dispatched — the world model is
returned untouched. -/
theorem c1_execute_only_when_approved
    (executors : List (String × ExecFn)) (now_iso : String) (w : WorldModel)
    (p : StrategyProposal) (d : GovernanceDecision) :
    ((fabric_execute executors now_iso w p d).1.isOk = true ↔
      d.verdict = GovernanceVerdict.approved) ∧
    (d.verdict ≠ GovernanceVerdict.approved →
      fabric_execute executors now_iso w p d =
        (Except.error ("Cannot execute proposal " ++ p.id ++
          ": governance verdict is " ++ verdict_value d.verdict ++
          ", not approved."), w)) := by
  unfold fabric_execute
  by_cases h : d.verdict = GovernanceVerdict.approved <;>
    simp [h, Except.isOk, Except.toBool]

/-- Witness for C1 at a concrete rejected decision. -/
theorem c1_execute_only_when_approved_witness :
    fabric_execute [] "t" world0 (prop0 "prop_w1" "i1" 0) dec_rejected0 =
      (Except.error
        "Cannot execute proposal prop_w1: governance verdict is rejected, not approved.",
       world0) :=
  (c1_execute_only_when_approved [] "t" world0 (prop0 "prop_w1" "i1" 0)
    dec_rejected0).2 (by decide)

/-- Claim C10: `verify_chain_integrity` returns true on a ledger containing
zero records, for any hash function. -/
theorem c10_verify_empty_ledger (sha256_canon : LineageRecord → String) :
    verify_chain_integrity sha256_canon [] = true := rfl

/-- Claim C6 (code-bug exhibit): on the unregistered-action-type path the
returned decision has `uncertainty = none` — no uncertainty declaration is
attached — while every other path and the documentation attach one. -/
theorem c6_unregistered_decision_lacks_uncertainty :
    (evaluate_proposal baseline_action_types never_cron
        (prop0 "prop_c6" "intent_c6" 0) [] world0 t0 (some "nonexistent")
        "gov_c6").uncertainty = none ∧
    (evaluate_proposal baseline_action_types never_cron
        (prop0 "prop_c6" "intent_c6" 0) [] world0 t0 (some "nonexistent")
        "gov_c6").verdict = GovernanceVerdict.rejected ∧
    (evaluate_proposal baseline_action_types never_cron
        (prop0 "prop_c6" "intent_c6" 0) [] world0 t0 (some "nonexistent")
        "gov_c6").rejection_reason = some "unregistered_action_type" :=
  ⟨rfl, rfl, rfl⟩

/-- A benign intent without constraints, for the C8 counterexample. -/
def c8_intent : IntentVector :=
  { id := "intent_c8", objective := "respond to leads", priority := 50,
    hard_constraints := [], soft_constraints := [], created_by := "op",
    created_at := "2026-01-01T00:00:00" }

/-- Claim C8 counterexample: the empty string is a provided action_type_id
that is not in the registry, yet the decision is APPROVED — the Python
truthiness guard `if action_type_id and ...` skips the registry check for
the empty string. -/
theorem c8_empty_action_type_skips_check :
    validate_action_type baseline_action_types "" = false ∧
    (evaluate_proposal baseline_action_types never_cron
        (prop0 "prop_c8" "intent_c8" 0) [c8_intent] world0 t0 (some "")
        "gov_c8").verdict = GovernanceVerdict.approved :=
  ⟨rfl, rfl⟩

/-- Claim C8 (amended: a provided *non-empty* action_type_id absent from the
registry): the evaluator returns the fixed REJECTED decision with
rejection_reason unregistered_action_type, and the decision does not depend
on the intents, the world model or the cron matcher — the registry check
short-circuits before any constraint, risk or conflict evaluation. -/
theorem c8_unregistered_action_type_short_circuits
    (reg : List ActionTypeSpec) (cron_match : String → Dt → Bool)
    (p : StrategyProposal) (intents : List IntentVector) (w : WorldModel)
    (t : Dt) (s : String) (did : String)
    (hne : s ≠ "") (hunreg : validate_action_type reg s = false) :
    evaluate_proposal reg cron_match p intents w t (some s) did =
      unregistered_rejection did p s t ∧
    (unregistered_rejection did p s t).verdict = GovernanceVerdict.rejected ∧
    (unregistered_rejection did p s t).rejection_reason =
      some "unregistered_action_type" ∧
    ∀ (intents2 : List IntentVector) (w2 : WorldModel)
      (cron2 : String → Dt → Bool),
      evaluate_proposal reg cron2 p intents2 w2 t (some s) did =
        evaluate_proposal reg cron_match p intents w t (some s) did := by
  have hg : unregistered_guard reg (some s) = true := by
    simp [unregistered_guard, hunreg, hne]
  refine ⟨?_, rfl, rfl, ?_⟩
  · unfold evaluate_proposal
    simp [hg]
  · intro intents2 w2 cron2
    unfold evaluate_proposal
    simp [hg]

/-- Witness for C8's amended theorem at the literal "nonexistent" id of the
spec's scenario 5. -/
theorem c8_unregistered_action_type_short_circuits_witness :
    evaluate_proposal baseline_action_types never_cron
        (prop0 "prop_c8b" "intent_c8" 0) [c8_intent] world0 t0
        (some "nonexistent") "gov_c8b" =
      unregistered_rejection "gov_c8b" (prop0 "prop_c8b" "intent_c8" 0)
        "nonexistent" t0 :=
  (c8_unregistered_action_type_short_circuits baseline_action_types never_cron
    (prop0 "prop_c8b" "intent_c8" 0) [c8_intent] world0 t0 "nonexistent"
    "gov_c8b" (by decide) (by decide)).1

/-- Hard cost_ceiling constraint with a $100 ceiling. -/
def c2_hard : Constraint :=
  { name := "cost_ceiling", type := .hard,
    description := "Budget cap of $100 per cycle" }

/-- Soft constraint sharing the name cost_ceiling, with a $1 ceiling. -/
def c2_soft : Constraint :=
  { name := "cost_ceiling", type := .soft,
    description := "Prefer spend under $1 per cycle" }

/-- Intent carrying both cost_ceiling constraints. -/
def c2_intent : IntentVector :=
  { id := "intent_c2", objective := "respond to leads", priority := 50,
    hard_constraints := [c2_hard], soft_constraints := [c2_soft],
    created_by := "op", created_at := "2026-01-01T00:00:00" }

/-- Claim C2 counterexample: with an active hard constraint and an active
soft constraint both named cost_ceiling (ceilings $100 and $1) and a
proposal costing $50, the decision is APPROVED and the name of the active
hard constraint appears in `violated_constraints` (via the violated soft
constraint of the same name), although the hard constraint itself is not
violated. -/
theorem c2_hard_name_in_approved_violations :
    (evaluate_proposal baseline_action_types never_cron
        (prop0 "prop_c2" "intent_c2" 50) [c2_intent] world0 t0 none
        "gov_c2").verdict = GovernanceVerdict.approved ∧
    (evaluate_proposal baseline_action_types never_cron
        (prop0 "prop_c2" "intent_c2" 50) [c2_intent] world0 t0 none
        "gov_c2").violated_constraints = ["cost_ceiling"] ∧
    get_active_constraints never_cron [c2_intent] t0 = [c2_hard, c2_soft] ∧
    c2_hard.type = ConstraintType.hard ∧
    c2_hard.name = "cost_ceiling" ∧
    check_constraint_violation (prop0 "prop_c2" "intent_c2" 50) c2_hard
      world0 = false := by
  refine ⟨?_, ?_, rfl, rfl, rfl, ?_⟩ <;> decide

/-- On a truthy unregistered action type, `evaluate_proposal` returns the
step-0 rejection unchanged. -/
theorem eval_unregistered_eq (reg : List ActionTypeSpec)
    (cron_match : String → Dt → Bool) (p : StrategyProposal)
    (intents : List IntentVector) (w : WorldModel) (t : Dt)
    (atid : Option String) (did : String)
    (hg : unregistered_guard reg atid = true) :
    evaluate_proposal reg cron_match p intents w t atid did =
      unregistered_rejection did p (atid.getD "") t := by
  unfold evaluate_proposal
  simp [hg]

/-- With the registry check passed and a violated active hard constraint,
`evaluate_proposal` rejects with the violated names. -/
theorem eval_hard_rejected (reg : List ActionTypeSpec)
    (cron_match : String → Dt → Bool) (p : StrategyProposal)
    (intents : List IntentVector) (w : WorldModel) (t : Dt)
    (atid : Option String) (did : String)
    (hg : unregistered_guard reg atid = false)
    (hhv : hard_violation_names cron_match p intents w t ≠ []) :
    (evaluate_proposal reg cron_match p intents w t atid did).verdict =
      GovernanceVerdict.rejected ∧
    (evaluate_proposal reg cron_match p intents w t atid did).violated_constraints =
      hard_violation_names cron_match p intents w t := by
  unfold evaluate_proposal
  simp [hg, hhv]

/-- With the registry check passed and no violated active hard constraint:
the decision's authorization level is the risk-derived level raised by the
action type's default; an APPROVED decision records exactly the violated
soft-constraint names; and when the legacy tier is "escalate" the verdict is
ESCALATE with reason risk_exceeds_system_authority. -/
theorem eval_after_hard_pass (reg : List ActionTypeSpec)
    (cron_match : String → Dt → Bool) (p : StrategyProposal)
    (intents : List IntentVector) (w : WorldModel) (t : Dt)
    (atid : Option String) (did : String)
    (hg : unregistered_guard reg atid = false)
    (hhv : hard_violation_names cron_match p intents w t = []) :
    (evaluate_proposal reg cron_match p intents w t atid did).authorization_level =
      some (apply_action_type_level reg atid
        (determine_auth_level (max_risk_of p.actions))) ∧
    ((evaluate_proposal reg cron_match p intents w t atid did).verdict =
        GovernanceVerdict.approved →
      (evaluate_proposal reg cron_match p intents w t atid did).violated_constraints =
        soft_violation_names cron_match p intents w t) ∧
    (determine_auth_tier (max_risk_of p.actions) = "escalate" →
      (evaluate_proposal reg cron_match p intents w t atid did).verdict =
          GovernanceVerdict.escalate ∧
      (evaluate_proposal reg cron_match p intents w t atid did).rejection_reason =
          some "risk_exceeds_system_authority") := by
  unfold evaluate_proposal
  simp only [hg, Bool.false_eq_true, if_false, hhv, ne_eq, not_true_eq_false,
    not_false_eq_true]
  split
  · exact ⟨rfl, by intro h; exact absurd h (by simp), fun _ => ⟨rfl, rfl⟩⟩
  · rename_i htier
    split
    · rename_i d heq
      split at heq
      · split at heq
        · split at heq
          · injection heq with heq2
            subst heq2
            exact ⟨rfl, by intro h; exact absurd h (by simp),
              fun h => absurd h htier⟩
          · exact absurd heq (by simp)
        · exact absurd heq (by simp)
      · exact absurd heq (by simp)
    · split
      · rename_i pr hfind
        have hpr := List.find?_some hfind
        refine ⟨rfl, ?_, fun h => absurd h htier⟩
        intro h
        have hpr2 : ¬ pr.verdict = GovernanceVerdict.approved := by simpa using hpr
        exact absurd (by simpa using h) hpr2
      · exact ⟨rfl, fun _ => rfl, fun h => absurd h htier⟩

/-- Claim C2 (amended): on an APPROVED decision no active hard constraint is
violated by the proposal and `violated_constraints` is exactly the list of
violated active soft-constraint names; a hard constraint's *name* may still
occur in the list when a violated soft constraint shares that name. -/
theorem c2_approved_decision_soft_violations_only
    (reg : List ActionTypeSpec) (cron_match : String → Dt → Bool)
    (p : StrategyProposal) (intents : List IntentVector) (w : WorldModel)
    (t : Dt) (atid : Option String) (did : String)
    (happ : (evaluate_proposal reg cron_match p intents w t atid did).verdict =
      GovernanceVerdict.approved) :
    (∀ c ∈ get_active_constraints cron_match intents t,
        c.type = ConstraintType.hard →
        check_constraint_violation p c w = false) ∧
    (evaluate_proposal reg cron_match p intents w t atid did).violated_constraints =
      soft_violation_names cron_match p intents w t := by
  by_cases hg : unregistered_guard reg atid = true
  · rw [eval_unregistered_eq reg cron_match p intents w t atid did hg] at happ
    exact absurd happ (by simp [unregistered_rejection])
  · have hg' : unregistered_guard reg atid = false := by
      simpa using hg
    by_cases hhv : hard_violation_names cron_match p intents w t = []
    · refine ⟨?_, (eval_after_hard_pass reg cron_match p intents w t atid did
        hg' hhv).2.1 happ⟩
      intro c hc htype
      have hfil : ((get_active_constraints cron_match intents t).filter
          (fun c => c.type = ConstraintType.hard)).filter
          (fun c => check_constraint_violation p c w) = [] := by
        have h2 := hhv
        unfold hard_violation_names at h2
        exact List.map_eq_nil_iff.mp h2
      by_contra hviol
      have hmem : c ∈ ((get_active_constraints cron_match intents t).filter
          (fun c => c.type = ConstraintType.hard)).filter
          (fun c => check_constraint_violation p c w) := by
        refine List.mem_filter.mpr ⟨List.mem_filter.mpr ⟨hc, by simp [htype]⟩, ?_⟩
        simpa using hviol
      rw [hfil] at hmem
      exact absurd hmem (List.not_mem_nil c)
    · have := (eval_hard_rejected reg cron_match p intents w t atid did
        hg' hhv).1
      rw [this] at happ
      exact absurd happ (by simp)

/-- Witness for C2's amended theorem: an approved decision over an entity
world with one violated soft constraint. -/
theorem c2_approved_decision_soft_violations_only_witness :
    (evaluate_proposal baseline_action_types never_cron
        (prop0 "prop_c2" "intent_c2" 50) [c2_intent] world0 t0 none
        "gov_c2").violated_constraints =
      soft_violation_names never_cron (prop0 "prop_c2" "intent_c2" 50)
        [c2_intent] world0 t0 ∧
    check_constraint_violation (prop0 "prop_c2" "intent_c2" 50) c2_hard
      world0 = false :=
  ⟨(c2_approved_decision_soft_violations_only baseline_action_types never_cron
      (prop0 "prop_c2" "intent_c2" 50) [c2_intent] world0 t0 none "gov_c2"
      (by decide)).2,
   (c2_approved_decision_soft_violations_only baseline_action_types never_cron
      (prop0 "prop_c2" "intent_c2" 50) [c2_intent] world0 t0 none "gov_c2"
      (by decide)).1 c2_hard (by decide) (by decide)⟩

/-- Every authorization level ranks at most 4. -/
theorem auth_val_le_four (l : AuthorizationLevel) : l.val ≤ 4 := by
  cases l <;> simp [AuthorizationLevel.val]

/-- L4 cannot be raised further by an action-type default. -/
theorem apply_action_type_level_L4 (reg : List ActionTypeSpec)
    (atid : Option String) :
    apply_action_type_level reg atid AuthorizationLevel.L4 =
      AuthorizationLevel.L4 := by
  unfold apply_action_type_level
  cases atid with
  | none => rfl
  | some s =>
      by_cases hs : s = ""
      · simp [hs]
      · cases hreg : registry_get reg s with
        | none => simp [hreg, hs]
        | some spec =>
            simp only [hs, hreg, ne_eq, not_false_eq_true, if_true]
            rw [if_neg (by cases spec.default_authorization_level <;> decide)]

/-- Claim C5: for every proposal that passes the registry guard and the
hard-constraint check, the decision's authorization level is the risk-derived
level of the table (risk 1-3 → L0, 4-5 → L1, 6-7 → L2, 8 → L3, 9-10 → L4,
with max_risk defaulting to 1 on an empty action list), raised to the action
type's registered default when that is higher; and when max_risk is 9 or
higher the verdict is ESCALATE with rejection_reason
risk_exceeds_system_authority and authorization level L4. -/
theorem c5_authorization_level_table
    (reg : List ActionTypeSpec) (cron_match : String → Dt → Bool)
    (p : StrategyProposal) (intents : List IntentVector) (w : WorldModel)
    (t : Dt) (atid : Option String) (did : String)
    (hg : unregistered_guard reg atid = false)
    (hhv : hard_violation_names cron_match p intents w t = []) :
    (evaluate_proposal reg cron_match p intents w t atid did).authorization_level =
      some (apply_action_type_level reg atid
        (determine_auth_level (max_risk_of p.actions))) ∧
    (∀ n : Nat,
      (n ≤ 3 → determine_auth_level n = .L0) ∧
      (4 ≤ n → n ≤ 5 → determine_auth_level n = .L1) ∧
      (6 ≤ n → n ≤ 7 → determine_auth_level n = .L2) ∧
      (n = 8 → determine_auth_level n = .L3) ∧
      (9 ≤ n → determine_auth_level n = .L4)) ∧
    (max_risk_of [] = 1) ∧
    (∀ (spec : ActionTypeSpec) (lvl : AuthorizationLevel) (s : String),
      atid = some s → s ≠ "" → registry_get reg s = some spec →
      apply_action_type_level reg atid lvl =
        (if spec.default_authorization_level.val > lvl.val then
          spec.default_authorization_level else lvl)) ∧
    (9 ≤ max_risk_of p.actions →
      (evaluate_proposal reg cron_match p intents w t atid did).verdict =
        GovernanceVerdict.escalate ∧
      (evaluate_proposal reg cron_match p intents w t atid did).rejection_reason =
        some "risk_exceeds_system_authority" ∧
      (evaluate_proposal reg cron_match p intents w t atid did).authorization_level =
        some AuthorizationLevel.L4) := by
  have hmain := eval_after_hard_pass reg cron_match p intents w t atid did hg hhv
  refine ⟨hmain.1, ?_, rfl, ?_, ?_⟩
  · intro n
    refine ⟨?_, ?_, ?_, ?_, ?_⟩ <;>
      (intros; unfold determine_auth_level) <;> first
        | (rw [if_pos (by omega)])
        | (rw [if_neg (by omega), if_pos (by omega)])
        | (rw [if_neg (by omega), if_neg (by omega), if_pos (by omega)])
        | (rw [if_neg (by omega), if_neg (by omega), if_neg (by omega),
            if_pos (by omega)])
        | (rw [if_neg (by omega), if_neg (by omega), if_neg (by omega),
            if_neg (by omega)])
  · intro spec lvl s hat hs hregs
    subst hat
    unfold apply_action_type_level
    simp [hs, hregs]
  · intro h9
    have htier : determine_auth_tier (max_risk_of p.actions) = "escalate" := by
      unfold determine_auth_tier
      rw [if_neg (by omega), if_neg (by omega), if_neg (by omega)]
    have hlvl : determine_auth_level (max_risk_of p.actions) =
        AuthorizationLevel.L4 := by
      unfold determine_auth_level
      rw [if_neg (by omega), if_neg (by omega), if_neg (by omega),
        if_neg (by omega)]
    have hesc := hmain.2.2 htier
    refine ⟨hesc.1, hesc.2, ?_⟩
    rw [hmain.1, hlvl, apply_action_type_level_L4]

/-- Risk-10 action for the C5 witness (the spec's scenario 4). -/
def c5_action : PlannedAction :=
  { action_type := "send_email", target := "lead_1", parameters := [],
    risk_score := 10 }

/-- Witness for C5 at a single risk-10 action: ESCALATE with
risk_exceeds_system_authority at level L4. -/
theorem c5_authorization_level_table_witness :
    9 ≤ max_risk_of [c5_action] ∧
    ((evaluate_proposal baseline_action_types never_cron
        { prop0 "prop_c5" "intent_c5" 0 with actions := [c5_action] } []
        world0 t0 none "gov_c5").verdict = GovernanceVerdict.escalate ∧
     (evaluate_proposal baseline_action_types never_cron
        { prop0 "prop_c5" "intent_c5" 0 with actions := [c5_action] } []
        world0 t0 none "gov_c5").rejection_reason =
       some "risk_exceeds_system_authority" ∧
     (evaluate_proposal baseline_action_types never_cron
        { prop0 "prop_c5" "intent_c5" 0 with actions := [c5_action] } []
        world0 t0 none "gov_c5").authorization_level =
       some AuthorizationLevel.L4) :=
  ⟨by decide,
   (c5_authorization_level_table baseline_action_types never_cron
      { prop0 "prop_c5" "intent_c5" 0 with actions := [c5_action] } [] world0
      t0 none "gov_c5" (by decide) (by decide)).2.2.2.2 (by decide)⟩

/-- Intent snapshot for the ledger fixtures. -/
def lr_intent : IntentVector :=
  { id := "lead_response_sla", objective := "respond within 10 minutes",
    priority := 80, hard_constraints := [], soft_constraints := [],
    created_by := "op", created_at := "2026-01-01T00:00:00" }

/-- A ledger record fixture. -/
def lr_rec (n drift : String) : LineageRecord :=
  { id := n, cycle_id := "cycle_" ++ n, intent := lr_intent,
    drift_detected := drift, drift_severity := 5,
    world_state_snapshot := [], proposals := [], governance_decisions := [],
    total_attempts := 1 }

/-- A concrete stand-in for the SHA-256 digest of the canonical JSON, used to
evaluate the ledger logic on explicit inputs (the verification logic treats
the digest as an opaque function of the record). -/
def demo_hash : LineageRecord → String := fun r =>
  "sha256:" ++ r.id ++ ":" ++ r.drift_detected ++ ":" ++
    (r.prior_record_hash.getD "genesis")

/-- An untampered two-record ledger built by successive appends. -/
def demo_rows : List LedgerRow :=
  ledger_append demo_hash
    (ledger_append demo_hash [] (lr_rec "lin_0" "sla breach"))
    (lr_rec "lin_1" "sla breach two")

/-- An attacker rewrite of a stored record: recompute the embedded signature
over the signature-zeroed record, as `append` itself does. -/
def resign (h : LineageRecord → String) (r : LineageRecord) : LineageRecord :=
  { r with signature := h (zero_signature r) }

/-- `demo_rows` with only the first row's stored `record_json` rewritten:
`drift_detected` is changed and the embedded signature recomputed; the
`signature` and `prior_record_hash` scalar columns are left untouched. -/
def tampered_rows : List LedgerRow :=
  match demo_rows with
  | row0 :: rest =>
      { row0 with
        record := resign demo_hash
          { row0.record with drift_detected := "FORGED drift" } } :: rest
  | [] => []

/-- Claim C3 (code-bug exhibit): on the untampered ledger every stored
record's signature is the digest of the signature-zeroed record, the prior
hashes chain (null for the first record) and verification passes; yet
rewriting the first row's stored `record_json` — changing `drift_detected`
and recomputing the embedded signature while leaving the scalar columns
alone — still passes `verify_chain_integrity`, because the chain link is
checked against the previous row's signature *column* and the embedded
signature is never compared against that column. -/
theorem c3_resigned_tamper_passes_verification :
    verify_chain_integrity demo_hash demo_rows = true ∧
    (demo_rows.map fun row => row.record.signature) =
      (demo_rows.map fun row => demo_hash (zero_signature row.record)) ∧
    (demo_rows.map fun row => row.record.prior_record_hash) =
      [none, some "sha256:lin_0:sla breach:genesis"] ∧
    (demo_rows.map fun row => row.record.signature) =
      ["sha256:lin_0:sla breach:genesis",
       "sha256:lin_1:sla breach two:sha256:lin_0:sla breach:genesis"] ∧
    verify_chain_integrity demo_hash tampered_rows = true ∧
    (tampered_rows.map fun row => row.record.drift_detected) ≠
      (demo_rows.map fun row => row.record.drift_detected) :=
  ⟨rfl, rfl, rfl, rfl, rfl, by decide⟩

/-- The EU lead without consent of the spec's scenario 1. -/
def c7_entity : EntityState :=
  { entity_type := "lead", entity_id := "lead_4821",
    properties := [("geo", .s "EU"), ("gdpr_consent", .b false),
                   ("local_hour", .i 14),
                   ("created_at", .s "2026-02-20T09:52:00")],
    last_updated := "2026-02-20T09:52:00", source := "crm",
    confidence := 9/10, obligations := ["lead_response_sla"] }

/-- World model containing the EU lead. -/
def c7_world : WorldModel :=
  { entities := [("lead_4821", c7_entity)],
    last_reconciled := "2026-02-20T09:59:00" }

/-- The hard GDPR constraint. -/
def c7_constraint : Constraint :=
  { name := "gdpr_consent_required", type := .hard,
    description := "GDPR consent required before direct outreach" }

/-- The SLA intent guarded by the GDPR constraint. -/
def c7_intent : IntentVector :=
  { id := "lead_response_sla", objective := "respond within 10 minutes",
    priority := 80, hard_constraints := [c7_constraint],
    soft_constraints := [], created_by := "op",
    created_at := "2026-01-01T00:00:00" }

/-- The drift event dispatched to the CGA loop. -/
def c7_drift : DriftEventDict :=
  { entity_id := some "lead_4821", intent_id := some "lead_response_sla",
    description := some "sla breach imminent", severity := some 9,
    sla_remaining_minutes := some 2 }

/-- The rule-based generator wired into the CGA loop for the scenario. -/
def c7_gen : Nat → List AccEntry → List StrategyProposal → StrategyProposal :=
  fun attempt acc priors =>
    generator_generate ("prop_" ++ toString attempt) "2026-02-20T10:00:00"
      c7_intent c7_drift acc priors attempt

/-- The governance evaluation wired into the CGA loop for the scenario. -/
def c7_eval : StrategyProposal → GovernanceDecision := fun p =>
  evaluate_proposal baseline_action_types never_cron p [c7_intent] c7_world
    t0 none ("gov_" ++ toString p.attempt_number)

/-- The execution dispatch wired into the CGA loop for the scenario. -/
def c7_exec : StrategyProposal → GovernanceDecision → ExecutionResult :=
  fun p d =>
    match fabric_execute (default_executors t0.iso) t0.iso c7_world p d with
    | (.ok r, _) => r
    | (.error _, _) =>
        { proposal_id := p.id, actions_completed := [], actions_failed := [],
          success := false, world_state_changes := [], executed_at := t0.iso }

/-- Claim C7 counterexample: attempt 1 is rejected with rejection_reason
gdpr_consent_required, yet attempt 2's generated proposal is exactly ladder
rung 2 (query_crm followed by the conditional send_email) — the accumulated
gdpr_consent_required signature disables rung 1 only, not rung 2. -/
theorem c7_attempt2_matches_rung2 :
    ((cga_run c7_gen c7_eval c7_exec 3).decisions.map fun d => d.verdict) =
      [.rejected, .rejected, .approved] ∧
    (((cga_run c7_gen c7_eval c7_exec 3).decisions.map
        fun d => d.rejection_reason)[0]?) =
      some (some "gdpr_consent_required") ∧
    (((cga_run c7_gen c7_eval c7_exec 3).proposals.map
        fun p => p.actions)[1]?) =
      some (rule_query_then_outreach c7_drift) ∧
    ((rule_query_then_outreach c7_drift).map fun a => a.action_type) =
      ["query_crm", "send_email"] :=
  ⟨rfl, rfl, rfl, rfl⟩

/-- Claim C7 (amended): an accumulated gdpr rejection disables ladder rung 1
only.  The next proposal is never rung 1's single direct send_email; and at
attempt 2, when no accumulated constraint carries a "no consent" or
"no_consent" signature, the generated proposal is exactly rung 2 (query_crm
followed by the conditional send_email). -/
theorem c7_gdpr_disables_rung1_only
    (pid now_iso : String) (intent : IntentVector) (drift : DriftEventDict)
    (acc : List AccEntry) (priors : List StrategyProposal) (attempt : Nat)
    (hgdpr : ∃ e ∈ acc, str_contains (str_lower e.constraint) "gdpr" = true) :
    would_violate_accumulated 0 acc = true ∧
    effective_rule_index attempt acc ≠ 0 ∧
    ((generator_generate pid now_iso intent drift acc priors attempt).actions.map
      fun a => a.action_type) ≠ ["send_email"] ∧
    ((∀ e ∈ acc, str_contains (str_lower e.constraint) "no consent" = false ∧
        str_contains (str_lower e.constraint) "no_consent" = false) →
      (generator_generate pid now_iso intent drift acc priors 2).actions =
        rule_query_then_outreach drift) := by
  obtain ⟨e, he, hec⟩ := hgdpr
  have h0 : would_violate_accumulated 0 acc = true := by
    unfold would_violate_accumulated
    simp only [if_pos rfl]
    exact List.any_eq_true.mpr ⟨e.constraint,
      List.mem_map.mpr ⟨e, he, rfl⟩, hec⟩
  have heff : effective_rule_index attempt acc ≠ 0 := by
    unfold effective_rule_index
    cases hf : (List.range' (min (attempt - 1) 2) (3 - min (attempt - 1) 2)).find?
        (fun i => ! would_violate_accumulated i acc) with
    | none => simp [hf]
    | some i =>
        simp only [hf]
        intro hi
        subst hi
        have hp := List.find?_some hf
        rw [h0] at hp
        simp at hp
  have hladder : ∀ i, i ≠ 0 →
      ((ladder_rule i drift).map fun a => a.action_type) ≠ ["send_email"] := by
    intro i hi
    unfold ladder_rule
    rw [if_neg hi]
    by_cases h1 : i = 1
    · simp [h1, rule_query_then_outreach]
    · rw [if_neg h1]
      simp [rule_human_handoff]
  refine ⟨h0, heff, hladder _ heff, ?_⟩
  intro hno
  have hw1 : would_violate_accumulated 1 acc = false := by
    unfold would_violate_accumulated
    rw [if_neg (by decide), if_pos rfl]
    rw [List.any_eq_false]
    intro c hc
    obtain ⟨e2, he2, hce⟩ := List.mem_map.mp hc
    subst hce
    simp [(hno e2 he2).1, (hno e2 he2).2]
  have heff2 : effective_rule_index 2 acc = 1 := by
    simp only [effective_rule_index]
    rw [show List.range' (min (2 - 1) 2) (3 - min (2 - 1) 2) = [1, 2] from rfl]
    rw [List.find?_cons_of_pos _ (by simp [hw1])]
  show ladder_rule (effective_rule_index 2 acc) drift = _
  rw [heff2]
  rfl

/-- The accumulated entry produced by a gdpr_consent_required rejection. -/
def c7_acc_entry : AccEntry :=
  { source := "governance_rejection_gov_1",
    constraint := "gdpr_consent_required",
    detail := "No GDPR consent on file." }

/-- Witness for C7's amended theorem at the concrete gdpr entry. -/
theorem c7_gdpr_disables_rung1_only_witness :
    would_violate_accumulated 0 [c7_acc_entry] = true ∧
    (generator_generate "prop_2" "2026-02-20T10:00:00" c7_intent c7_drift
      [c7_acc_entry] [] 2).actions = rule_query_then_outreach c7_drift :=
  ⟨(c7_gdpr_disables_rung1_only "prop_2" "2026-02-20T10:00:00" c7_intent
      c7_drift [c7_acc_entry] [] 2 (by decide)).1,
   (c7_gdpr_disables_rung1_only "prop_2" "2026-02-20T10:00:00" c7_intent
      c7_drift [c7_acc_entry] [] 2 (by decide)).2.2.2 (by decide)⟩

/-- Invariant lemma for the CGA loop worker: starting from an all-rejected
decision prefix whose entries are exactly the accumulated rejections. -/
theorem cga_go_spec
    (gen : Nat → List AccEntry → List StrategyProposal → StrategyProposal)
    (evalD : StrategyProposal → GovernanceDecision)
    (execF : StrategyProposal → GovernanceDecision → ExecutionResult) :
    ∀ (fuel attempt : Nat) (ps : List StrategyProposal)
      (ds : List GovernanceDecision) (acc : List AccEntry) (r : CGAResult),
      (∀ d ∈ ds, d.verdict = GovernanceVerdict.rejected) →
      acc = ds.map acc_of_decision →
      r = cga_go gen evalD execF fuel attempt ps ds acc →
      r.total_attempts ≤ attempt + fuel ∧
      ((∃ d ∈ r.decisions, d.verdict = GovernanceVerdict.approved) ↔
        r.execution_result.isSome = true) ∧
      (∀ d ∈ r.decisions.dropLast, d.verdict = GovernanceVerdict.rejected) ∧
      (∀ dl, r.decisions.getLast? = some dl →
        dl.verdict = GovernanceVerdict.escalate →
        r.execution_result = none ∧ r.escalated = true) ∧
      ((∀ d ∈ r.decisions, d.verdict = GovernanceVerdict.rejected) →
        r.escalated = true ∧ r.total_attempts = attempt + fuel ∧
        r.execution_result = none ∧
        r.accumulated_constraints = r.decisions.map acc_of_decision) := by
  intro fuel
  induction fuel with
  | zero =>
      intro attempt ps ds acc r hds hacc hr
      subst hr
      unfold cga_go
      refine ⟨by show attempt ≤ attempt + 0; omega, ?_, ?_, ?_, ?_⟩
      · constructor
        · rintro ⟨d, hd, hv⟩
          rw [hds d hd] at hv
          exact absurd hv (by simp)
        · intro h
          exact absurd h (by simp)
      · intro d hd
        exact hds d (List.dropLast_subset ds hd)
      · intro dl hlast hesc
        have hmem : dl ∈ ds := List.mem_of_mem_getLast? hlast
        rw [hds dl hmem] at hesc
        exact absurd hesc (by simp)
      · intro _
        exact ⟨rfl, by show attempt = attempt + 0; omega, rfl, hacc⟩
  | succ fuel ih =>
      intro attempt ps ds acc r hds hacc hr
      unfold cga_go at hr
      set p := gen (attempt + 1) acc ps with hp
      set d := evalD p with hd
      by_cases happ : d.verdict = GovernanceVerdict.approved
      · rw [if_pos happ] at hr
        subst hr
        refine ⟨by show attempt + 1 ≤ attempt + (fuel + 1); omega, ?_, ?_, ?_, ?_⟩
        · constructor
          · intro _
            rfl
          · intro _
            exact ⟨d, by simp, happ⟩
        · intro d2 hd2
          rw [List.dropLast_concat] at hd2
          exact hds d2 hd2
        · intro dl hlast hesc
          rw [List.getLast?_concat] at hlast
          injection hlast with hdl
          rw [← hdl, happ] at hesc
          exact absurd hesc (by simp)
        · intro hall
          have := hall d (by simp)
          rw [happ] at this
          exact absurd this (by simp)
      · by_cases hesc : d.verdict = GovernanceVerdict.escalate
        · rw [if_neg happ, if_pos hesc] at hr
          subst hr
          refine ⟨by show attempt + 1 ≤ attempt + (fuel + 1); omega, ?_, ?_, ?_, ?_⟩
          · constructor
            · rintro ⟨d2, hd2, hv⟩
              rcases List.mem_append.mp hd2 with h2 | h2
              · rw [hds d2 h2] at hv
                exact absurd hv (by simp)
              · rw [List.mem_singleton.mp h2, hesc] at hv
                exact absurd hv (by simp)
            · intro h
              exact absurd h (by simp)
          · intro d2 hd2
            rw [List.dropLast_concat] at hd2
            exact hds d2 hd2
          · intro dl hlast _
            exact ⟨rfl, rfl⟩
          · intro hall
            have := hall d (by simp)
            rw [hesc] at this
            exact absurd this (by simp)
        · rw [if_neg happ, if_neg hesc] at hr
          have hds2 : ∀ d2 ∈ ds ++ [d], d2.verdict = GovernanceVerdict.rejected := by
            intro d2 hd2
            rcases List.mem_append.mp hd2 with h2 | h2
            · exact hds d2 h2
            · rw [List.mem_singleton.mp h2]
              cases hv : d.verdict with
              | approved => exact absurd hv happ
              | escalate => exact absurd hv hesc
              | rejected => rfl
          have hacc2 : acc ++ [acc_of_decision d] =
              (ds ++ [d]).map acc_of_decision := by
            rw [List.map_append, hacc]
            rfl
          have := ih (attempt + 1) (ps ++ [p]) (ds ++ [d])
            (acc ++ [acc_of_decision d]) r hds2 hacc2 hr
          refine ⟨by omega, this.2.1, this.2.2.1, this.2.2.2.1, ?_⟩
          intro hall
          have h5 := this.2.2.2.2 hall
          exact ⟨h5.1, by omega, h5.2.2.1, h5.2.2.2⟩

/-- Claim C4: a CGA run performs at most max_attempts generate/evaluate
attempts; execution is dispatched exactly when some attempt's decision is
APPROVED, and every non-final decision is REJECTED (so APPROVED and ESCALATE
both end the loop at once); a final ESCALATE decision ends the run without
execution; and when every decision within the budget is REJECTED, the run
ends escalated with total_attempts = max_attempts, no execution result, and
one accumulated rejection entry per decision recording the source decision
id and its rejection reason. -/
theorem c4_cga_loop_contract
    (gen : Nat → List AccEntry → List StrategyProposal → StrategyProposal)
    (evalD : StrategyProposal → GovernanceDecision)
    (execF : StrategyProposal → GovernanceDecision → ExecutionResult)
    (max_attempts : Nat) :
    (cga_run gen evalD execF max_attempts).total_attempts ≤ max_attempts ∧
    ((∃ d ∈ (cga_run gen evalD execF max_attempts).decisions,
        d.verdict = GovernanceVerdict.approved) ↔
      (cga_run gen evalD execF max_attempts).execution_result.isSome = true) ∧
    (∀ d ∈ (cga_run gen evalD execF max_attempts).decisions.dropLast,
      d.verdict = GovernanceVerdict.rejected) ∧
    (∀ dl, (cga_run gen evalD execF max_attempts).decisions.getLast? = some dl →
      dl.verdict = GovernanceVerdict.escalate →
      (cga_run gen evalD execF max_attempts).execution_result = none ∧
      (cga_run gen evalD execF max_attempts).escalated = true) ∧
    ((∀ d ∈ (cga_run gen evalD execF max_attempts).decisions,
        d.verdict = GovernanceVerdict.rejected) →
      (cga_run gen evalD execF max_attempts).escalated = true ∧
      (cga_run gen evalD execF max_attempts).total_attempts = max_attempts ∧
      (cga_run gen evalD execF max_attempts).execution_result = none ∧
      (cga_run gen evalD execF max_attempts).accumulated_constraints =
        (cga_run gen evalD execF max_attempts).decisions.map acc_of_decision) := by
  have h := cga_go_spec gen evalD execF max_attempts 0 [] [] []
    (cga_run gen evalD execF max_attempts) (by simp) (by simp) rfl
  simpa using h

/-- Generator fixture for the C4 witness. -/
def c4_gen : Nat → List AccEntry → List StrategyProposal → StrategyProposal :=
  fun attempt _ _ => prop0 ("prop_" ++ toString attempt) "intent_c4" 0

/-- An always-rejecting evaluation fixture. -/
def c4_eval : StrategyProposal → GovernanceDecision := fun p =>
  { id := "gov_" ++ p.id, proposal_id := p.id,
    verdict := GovernanceVerdict.rejected,
    rejection_reason := some "gdpr_consent_required",
    rejection_detail := some "No GDPR consent on file.",
    evaluated_at := "2026-02-20T10:00:00" }

/-- Execution fixture for the C4 witness. -/
def c4_exec : StrategyProposal → GovernanceDecision → ExecutionResult :=
  fun p _ =>
    { proposal_id := p.id, actions_completed := [], actions_failed := [],
      success := true, world_state_changes := [],
      executed_at := "2026-02-20T10:00:00" }

/-- Witness for C4: with every decision rejected and the default budget of 3,
the run escalates after exactly 3 attempts with no execution and one
accumulated entry per rejection. -/
theorem c4_cga_loop_contract_witness :
    (∀ d ∈ (cga_run c4_gen c4_eval c4_exec 3).decisions,
      d.verdict = GovernanceVerdict.rejected) ∧
    ((cga_run c4_gen c4_eval c4_exec 3).escalated = true ∧
     (cga_run c4_gen c4_eval c4_exec 3).total_attempts = 3 ∧
     (cga_run c4_gen c4_eval c4_exec 3).execution_result = none ∧
     (cga_run c4_gen c4_eval c4_exec 3).accumulated_constraints =
       (cga_run c4_gen c4_eval c4_exec 3).decisions.map acc_of_decision) :=
  ⟨by decide, (c4_cga_loop_contract c4_gen c4_eval c4_exec 3).2.2.2.2 (by decide)⟩

/-- A circuit-broken entity is skipped by a single tick, unchanged. -/
theorem tick_circuit_broken (cfg : ReconcilerConfig) (eid : String)
    (s : DampeningState) (inp : TickInput) (h : s.circuit_broken = true) :
    reconciler_tick cfg eid (some s) inp = (some s, false) := by
  unfold reconciler_tick is_dampened
  simp [h]

/-- An entity in cooldown at the tick's current time is skipped, unchanged. -/
theorem tick_cooldown_blocked (cfg : ReconcilerConfig) (eid : String)
    (s : DampeningState) (inp : TickInput) (cu : Nat)
    (hcu : s.cooldown_until = some cu) (hnow : inp.now < cu) :
    reconciler_tick cfg eid (some s) inp = (some s, false) := by
  unfold reconciler_tick is_dampened
  by_cases hb : s.circuit_broken = true
  · simp [hb]
  · simp only [Bool.not_eq_true] at hb
    simp [hb, hcu, hnow]

/-- When a tick runs a CGA cycle, the new dampening state is the update at
the tick's time, whose cooldown ends `cooldown_seconds` later. -/
theorem tick_ran_state (cfg : ReconcilerConfig) (eid : String)
    (st : Option DampeningState) (inp : TickInput)
    (h : (reconciler_tick cfg eid st inp).2 = true) :
    (reconciler_tick cfg eid st inp).1 =
      some (update_dampening cfg eid st inp.escalated inp.now) ∧
    (update_dampening cfg eid st inp.escalated inp.now).cooldown_until =
      some (inp.now + cfg.cooldown_seconds) := by
  unfold reconciler_tick at h ⊢
  by_cases hd : is_dampened st inp.now = true
  · rw [if_pos hd] at h
    exact absurd h (by simp)
  · rw [if_neg hd] at h ⊢
    by_cases hdr : inp.has_drift = true
    · rw [if_pos hdr]
      refine ⟨rfl, ?_⟩
      unfold update_dampening
      by_cases he : inp.escalated = true <;> simp [he]
    · rw [if_neg hdr] at h
      exact absurd h (by simp)

/-- A dampening state whose cooldown covers every tick of a trace blocks the
whole trace, leaving the state unchanged. -/
theorem trace_all_blocked (cfg : ReconcilerConfig) (eid : String)
    (s1 : DampeningState) (cu : Nat) (hcu : s1.cooldown_until = some cu) :
    ∀ trace : List TickInput, (∀ j ∈ trace, j.now < cu) →
      reconciler_trace cfg eid (some s1) trace =
        (some s1, List.replicate trace.length false) := by
  intro trace
  induction trace with
  | nil => intro _; rfl
  | cons j rest ih =>
      intro hwin
      unfold reconciler_trace
      rw [tick_cooldown_blocked cfg eid s1 j cu hcu (hwin j (by simp))]
      simp [ih (fun j2 hj2 => hwin j2 (by simp [hj2])),
        List.replicate_succ]

/-- Claim C9: after a tick handles a drift event for an entity at time t, the
entity's cooldown_until is t + cooldown_seconds (300 s by default); every
subsequent tick whose current time is earlier than cooldown_until runs no
CGA cycle and leaves the dampening state unchanged, so at most one CGA cycle
processes the entity within one cooldown window; when a cycle escalates and
brings the consecutive-failure count to circuit_breaker_threshold (5 by
default), circuit_broken is set; and a circuit-broken entity is skipped on
every subsequent tick with its state unchanged. -/
theorem c9_dampening_and_circuit_breaker (cfg : ReconcilerConfig)
    (eid : String) :
    (({} : ReconcilerConfig).cooldown_seconds = 300 ∧
     ({} : ReconcilerConfig).circuit_breaker_threshold = 5) ∧
    (∀ (st : Option DampeningState) (inp : TickInput),
      (reconciler_tick cfg eid st inp).2 = true →
      ((reconciler_tick cfg eid st inp).1.bind fun s => s.cooldown_until) =
        some (inp.now + cfg.cooldown_seconds)) ∧
    (∀ (st : Option DampeningState) (inp : TickInput)
       (trace : List TickInput),
      (reconciler_tick cfg eid st inp).2 = true →
      (∀ j ∈ trace, j.now < inp.now + cfg.cooldown_seconds) →
      reconciler_trace cfg eid (reconciler_tick cfg eid st inp).1 trace =
        ((reconciler_tick cfg eid st inp).1,
         List.replicate trace.length false)) ∧
    (∀ (st : Option DampeningState) (inp : TickInput),
      (reconciler_tick cfg eid st inp).2 = true →
      inp.escalated = true →
      cfg.circuit_breaker_threshold ≤
        ((st.map fun s => s.consecutive_failures).getD 0) + 1 →
      ((reconciler_tick cfg eid st inp).1.map fun s => s.circuit_broken) =
        some true) ∧
    (∀ (s : DampeningState) (trace : List TickInput),
      s.circuit_broken = true →
      reconciler_trace cfg eid (some s) trace =
        (some s, List.replicate trace.length false)) := by
  have hbroken : ∀ (s : DampeningState) (trace : List TickInput),
      s.circuit_broken = true →
      reconciler_trace cfg eid (some s) trace =
        (some s, List.replicate trace.length false) := by
    intro s trace hb
    induction trace with
    | nil => rfl
    | cons inp rest ih =>
        unfold reconciler_trace
        rw [tick_circuit_broken cfg eid s inp hb]
        simp [ih, List.replicate_succ]
  refine ⟨⟨rfl, rfl⟩, ?_, ?_, ?_, hbroken⟩
  · intro st inp h
    rw [(tick_ran_state cfg eid st inp h).1]
    simpa using (tick_ran_state cfg eid st inp h).2
  · intro st inp trace h hwin
    rw [(tick_ran_state cfg eid st inp h).1]
    exact trace_all_blocked cfg eid _ _
      (tick_ran_state cfg eid st inp h).2 trace hwin
  · intro st inp h hesc hth
    rw [(tick_ran_state cfg eid st inp h).1]
    unfold update_dampening
    simp only [hesc, if_true, Option.map_some']
    cases st with
    | none =>
        have hth2 : cfg.circuit_breaker_threshold ≤ 0 + 1 := hth
        simp only [Option.getD_none]
        simp [hth2]
    | some s =>
        have hth2 : cfg.circuit_breaker_threshold ≤
            s.consecutive_failures + 1 := hth
        simp only [Option.getD_some]
        simp [hth2]

/-- A tick at time 1000 with a drift event whose cycle escalates. -/
def c9_tick1 : TickInput := { now := 1000, has_drift := true, escalated := true }

/-- An entity one escalation away from the default breaker threshold. -/
def c9_state4 : DampeningState :=
  { entity_id := "lead_4821", last_intervention_at := 700,
    consecutive_failures := 4 }

/-- A circuit-broken entity state. -/
def c9_broken : DampeningState :=
  { entity_id := "lead_4821", last_intervention_at := 700,
    circuit_broken := true }

/-- Witness for C9 at the default configuration: cooldown lands at
1000 + 300; two in-window ticks run no cycle; a fifth consecutive escalation
trips the breaker; a broken entity is skipped. -/
theorem c9_dampening_and_circuit_breaker_witness :
    ((reconciler_tick {} "lead_4821" none c9_tick1).1.bind
      fun s => s.cooldown_until) = some 1300 ∧
    reconciler_trace {} "lead_4821"
        (reconciler_tick {} "lead_4821" none c9_tick1).1
        [⟨1100, true, true⟩, ⟨1299, true, false⟩] =
      ((reconciler_tick {} "lead_4821" none c9_tick1).1, [false, false]) ∧
    ((reconciler_tick {} "lead_4821" (some c9_state4) c9_tick1).1.map
      fun s => s.circuit_broken) = some true ∧
    reconciler_trace {} "lead_4821" (some c9_broken) [⟨9999, true, true⟩] =
      (some c9_broken, [false]) := by
  refine ⟨?_, ?_, ?_, ?_⟩
  · have h := (c9_dampening_and_circuit_breaker {} "lead_4821").2.1 none
      c9_tick1 (by decide)
    simpa using h
  · have h := (c9_dampening_and_circuit_breaker {} "lead_4821").2.2.1 none
      c9_tick1 [⟨1100, true, true⟩, ⟨1299, true, false⟩] (by decide) (by decide)
    simpa using h
  · exact (c9_dampening_and_circuit_breaker {} "lead_4821").2.2.2.1
      (some c9_state4) c9_tick1 (by decide) rfl (by decide)
  · have h := (c9_dampening_and_circuit_breaker {} "lead_4821").2.2.2.2
      c9_broken [⟨9999, true, true⟩] rfl
    simpa using h
